import Mathlib

/-!
Verification of the Valhalla bicycle router (`src/vrouter.c`) against its
specification. The C program is shallowly embedded: C `float`/`double`
arithmetic is modelled over `ℚ`, fixed-size C arrays are modelled as total
functions `Nat → _` together with an explicit size/capacity, and the
transcendental `haversine` function is abstracted as an oracle parameter
(`hav`), since every claim under scrutiny concerns control flow and exact
arithmetic around distance values, not trigonometry. File I/O plus gzip
decompression (`load_tile`) is modelled as a map `Nat → Option Tile` from
tile ids to already-decompressed tiles; the C tile cache is a pure
performance device (lookups always yield the same tile contents), so the
map is consulted directly. The forward and backward copies of the heap and
visited-set functions in the C source are textually identical up to the
global array they touch; they are embedded once, parameterised by the
structure they operate on, and instantiated for both directions inside the
search loop.
-/

namespace VRouter

/-! ### Data structures (vrouter.c lines 56-100) -/

/-- Search state: `(tile_id, node_id)` (C struct `State`). -/
structure State where
  tile_id : Nat
  node_id : Nat
deriving DecidableEq

/-- Decoded endpoint/access view of an edge (C struct `EdgeEnd`). -/
structure EdgeEnd where
  end_level : Nat
  end_tile_id : Nat
  end_node_id : Nat
  has_bike : Bool
  has_ped : Bool
  has_car : Bool
deriving DecidableEq

/-- Decoded attribute view of an edge (C struct `EdgeDetails`).
`length` is a `float` in C, fed from a 24-bit integer; it is modelled in ℚ. -/
structure EdgeDetails where
  length : ℚ
  use : Nat
  classification : Nat
  cycle_lane : Nat
  surface : Nat
  speed : Nat
  bike_network : Bool
  lanecount : Nat
  use_sidepath : Bool
  dismount : Bool
  shoulder : Bool
  weighted_grade : Nat
deriving DecidableEq

/-- Frontier entry (C struct `HeapEntry`). -/
structure HeapEntry where
  f : ℚ
  g : ℚ
  dist : ℚ
  state : State
  parent : State
  parent_edge : Nat
deriving DecidableEq

/-- Visited-set entry (C struct `VisitedEntry`). -/
structure VisitedEntry where
  state : State
  parent : State
  parent_edge : Nat
  g : ℚ
  valid : Bool
deriving DecidableEq

/-- A graph node (C struct `Node`); lat/lon over ℚ. -/
structure Node where
  lat : ℚ
  lon : ℚ
  edge_index : Nat
  edge_count : Nat

/-- A loaded tile (C struct `Tile`): the raw decompressed byte buffer is a
function from offsets to bytes, plus the header fields the router parses
eagerly and the parsed node array. -/
structure Tile where
  raw : Nat → Nat
  raw_size : Nat
  node_count : Nat
  edge_count : Nat
  edges_offset : Nat
  nodes : Nat → Node

/-- The routing options (C globals `g_use_roads`, `g_use_hills`,
`g_bicycle_type`, `g_avoid_pushing`, `g_avoid_cars`). -/
structure RouteOptions where
  use_roads : ℚ
  use_hills : ℚ
  bicycle_type : Nat
  avoid_pushing : Bool
  avoid_cars : Bool

/-! ### Binary reader (vrouter.c lines 197-211) -/

/-- `read_u64`: little-endian 64-bit read; `% 256` reflects that the C buffer
holds `uint8_t` bytes. -/
def read_u64 (d : Nat → Nat) (o : Nat) : Nat :=
  d o % 256 + d (o+1) % 256 * 2 ^ 8 + d (o+2) % 256 * 2 ^ 16 + d (o+3) % 256 * 2 ^ 24 +
  d (o+4) % 256 * 2 ^ 32 + d (o+5) % 256 * 2 ^ 40 + d (o+6) % 256 * 2 ^ 48 +
  d (o+7) % 256 * 2 ^ 56

/-! ### Edge decoder (vrouter.c lines 296-346) -/

/-- `get_edge_end` (vrouter.c lines 296-316). Returns `none` exactly on the
two C guard failures, otherwise decodes the 46-bit endnode of word 0 and
the OR of the forward/reverse access masks of word 3 (car=1, ped=2, bike=4). -/
def get_edge_end (t : Tile) (idx : Nat) : Option EdgeEnd :=
  if idx ≥ t.edge_count then none
  else
    let off := t.edges_offset + idx * 48
    if off + 48 > t.raw_size then none
    else
      let w0 := read_u64 t.raw off
      let w3 := read_u64 t.raw (off + 24)
      let endnode := w0 % 2 ^ 46
      let fwd := w3 % 2 ^ 12
      let rev := w3 / 2 ^ 12 % 2 ^ 12
      some { end_level := endnode % 8
             end_tile_id := endnode / 8 % 2 ^ 22
             end_node_id := endnode / 2 ^ 25 % 2 ^ 21
             has_bike := (fwd ||| rev) &&& 4 != 0
             has_ped := (fwd ||| rev) &&& 2 != 0
             has_car := (fwd ||| rev) &&& 1 != 0 }

/-- `get_edge_details` (vrouter.c lines 318-346), with the three in-decoder
defaults: speed 0 → 15, lanecount 0 → 1, weighted_grade 0 → 7. -/
def get_edge_details (t : Tile) (idx : Nat) : Option EdgeDetails :=
  if idx ≥ t.edge_count then none
  else
    let off := t.edges_offset + idx * 48
    if off + 48 > t.raw_size then none
    else
      let w2 := read_u64 t.raw (off + 16)
      let w3 := read_u64 t.raw (off + 24)
      let w4 := read_u64 t.raw (off + 32)
      let speed0 := w2 % 256
      let lanecount0 := w2 / 2 ^ 46 % 16
      let grade0 := w4 / 2 ^ 56 % 16
      some { length := (w4 / 2 ^ 32 % 2 ^ 24 : Nat)
             use := w2 / 2 ^ 40 % 64
             classification := w2 / 2 ^ 54 % 8
             cycle_lane := w3 / 2 ^ 37 % 4
             surface := w2 / 2 ^ 57 % 8
             speed := if speed0 = 0 then 15 else speed0
             bike_network := w3 / 2 ^ 39 % 2 != 0
             lanecount := if lanecount0 = 0 then 1 else lanecount0
             use_sidepath := w3 / 2 ^ 40 % 2 != 0
             dismount := w3 / 2 ^ 41 % 2 != 0
             shoulder := w3 / 2 ^ 44 % 2 != 0
             weighted_grade := if grade0 = 0 then 7 else grade0 }

/-! ### Costing constants (vrouter.c lines 149-182) -/

/-- `kDefaultCyclingSpeed`: km/h per bicycle type (Road, Cross, Hybrid, Mountain). -/
def kDefaultCyclingSpeed : Nat → ℚ
  | 0 => 25 | 1 => 20 | 2 => 18 | 3 => 16 | _ => 0

/-- `kWorstAllowedSurface` per bicycle type. -/
def kWorstAllowedSurface : Nat → Nat
  | 0 => 2 | 1 => 3 | 2 => 4 | 3 => 6 | _ => 0

/-- `kGradeBasedSpeedFactor[16]`. -/
def kGradeBasedSpeedFactor : Nat → ℚ
  | 0 => 2.2 | 1 => 2.0 | 2 => 1.9 | 3 => 1.7 | 4 => 1.4 | 5 => 1.2 | 6 => 1.0 | 7 => 0.95
  | 8 => 0.85 | 9 => 0.75 | 10 => 0.65 | 11 => 0.55 | 12 => 0.5 | 13 => 0.45 | 14 => 0.4
  | 15 => 0.3 | _ => 0

/-- `kSurfaceSpeedFactor[4][8]`, row per bicycle type, column per surface. -/
def kSurfaceSpeedFactor (bt s : Nat) : ℚ :=
  ([[1, 1, 0.9, 0.6, 0.5, 0.3, 0.2, 0],
    [1, 1, 1, 0.8, 0.7, 0.5, 0.4, 0],
    [1, 1, 1, 0.8, 0.6, 0.4, 0.25, 0],
    [(1:ℚ), 1, 1, 1, 0.9, 0.75, 0.55, 0]].getD bt []).getD s 0

/-- `kDismountSpeed` (km/h). -/
def kDismountSpeed : ℚ := 5.1

/-- `kSpeedFactor[s] = 3.6 / s` for `s > 0`, else `3.6` (init_costing,
vrouter.c lines 502-504). -/
def kSpeedFactor (s : Nat) : ℚ := if 0 < s then 3.6 / (s : ℚ) else 3.6

/-! ### Cost model (`edge_cost`, vrouter.c lines 537-630), factored into the
speed computation, the time cost and the preference multiplier exactly as
the C function computes them in sequence. -/

/-- Cycling speed before the clamp: surface and grade factors applied to
the default speed, overridden by the dismount walking speed
(vrouter.c lines 551-564; the grade and surface indices are clamped to
their table sizes first). -/
def rawCyclingSpeed (o : RouteOptions) (ed : EdgeDetails) : ℚ :=
  if ed.dismount then kDismountSpeed
  else
    kDefaultCyclingSpeed o.bicycle_type *
      kSurfaceSpeedFactor o.bicycle_type (min ed.surface 7) *
      kGradeBasedSpeedFactor (min ed.weighted_grade 15)

/-- Cycling speed of an edge after the `[4, 40]` km/h clamp
(vrouter.c lines 566-567). -/
def edgeSpeed (o : RouteOptions) (ed : EdgeDetails) : ℚ :=
  if rawCyclingSpeed o ed < 4 then 4
  else if rawCyclingSpeed o ed > 40 then 40
  else rawCyclingSpeed o ed

/-- Base time cost in seconds: `length / (speed / 3.6)` (vrouter.c line 570). -/
def edgeTimeCost (o : RouteOptions) (ed : EdgeDetails) : ℚ :=
  ed.length / (edgeSpeed o ed / 3.6)

/-- The use-based preference factor (vrouter.c lines 573-598): the else-if
chain over cycleway (20), track (3), mountain-bike trail (21), path (27)
and footway (25), living street (10), and generic road (0). -/
def prefUseFactor (o : RouteOptions) (ed : EdgeDetails) : ℚ :=
  if ed.use = 20 then 0.9
  else if ed.use = 3 then 0.9
  else if ed.use = 21 then (if o.bicycle_type = 3 then 0.85 else 1)
  else if ed.use = 27 ∨ ed.use = 25 then 0.95
  else if ed.use = 10 then 0.95
  else if ed.use = 0 then
    (1 + (1 - o.use_roads) * 0.15) - (if 2 ≤ ed.cycle_lane then 0.1 else 0)
  else 1

/-- The clamped avoid-cars stress (vrouter.c lines 616-624): 0.2 plus speed,
classification and lane terms, minus the cycle-lane relief, clamped to
`[0.1, 1.0]`. -/
def carStress (ed : EdgeDetails) : ℚ :=
  let st0 : ℚ := 0.2 + (if ed.speed > 50 then (0.3:ℚ) else 0) +
      (if ed.speed > 70 then (0.3:ℚ) else 0) +
      (if ed.classification ≤ 2 then (0.2:ℚ) else 0) +
      (if ed.lanecount ≥ 2 then (0.1:ℚ) else 0) -
      (if ed.cycle_lane ≥ 2 then (0.3:ℚ) else 0)
  let st1 := if st0 < 0.1 then 0.1 else st0
  if st1 > 1 then 1 else st1

/-- The preference multiplier (vrouter.c lines 572-627): use-based factor,
bike-network bonus, push-the-bike factor (`×2.0` with avoid_pushing, `×1.3`
otherwise), and the avoid-cars stress factor, composed in C order. -/
def edgePreference (o : RouteOptions) (ee : EdgeEnd) (ed : EdgeDetails) : ℚ :=
  let p1 := if ed.bike_network then prefUseFactor o ed * 0.95 else prefUseFactor o ed
  let p2 := if ee.has_bike = false ∧ ee.has_ped = true then
      p1 * (if o.avoid_pushing then 2.0 else 1.3) else p1
  if o.avoid_cars ∧ ee.has_car = true then
    if ed.use = 3 ∨ ed.use = 10 ∨ ed.use = 11 then p2 * 1.05
    else p2 * (1 + carStress ed * 0.5)
  else p2

/-- `edge_cost` (vrouter.c lines 537-630): the 1e9 sentinel for non-positive
length, the steps and ferry special cases, then time cost × preference. -/
def edge_cost (o : RouteOptions) (ee : EdgeEnd) (ed : EdgeDetails) : ℚ :=
  if ed.length ≤ 0 then 1000000000
  else if ed.use = 26 then ed.length * kSpeedFactor 4 * 3
  else if ed.use = 41 then ed.length * kSpeedFactor ed.speed * 1.2
  else edgeTimeCost o ed * edgePreference o ee ed

/-- Spec-side definition (for the push-multiplier claim): the preference
multiplier with every factor of `edgePreference` except the push-the-bike
factor, i.e. "the other preference factors". -/
def edgePreferenceNoPush (o : RouteOptions) (ee : EdgeEnd) (ed : EdgeDetails) : ℚ :=
  let p1 := if ed.bike_network then prefUseFactor o ed * 0.95 else prefUseFactor o ed
  if o.avoid_cars ∧ ee.has_car = true then
    if ed.use = 3 ∨ ed.use = 10 ∨ ed.use = 11 then p1 * 1.05
    else p1 * (1 + carStress ed * 0.5)
  else p1

/-- Spec-side definition: edge cost with the base cost and all preference
factors other than the push-the-bike factor. -/
def costWithoutPushFactor (o : RouteOptions) (ee : EdgeEnd) (ed : EdgeDetails) : ℚ :=
  if ed.length ≤ 0 then 1000000000
  else if ed.use = 26 then ed.length * kSpeedFactor 4 * 3
  else if ed.use = 41 then ed.length * kSpeedFactor ed.speed * 1.2
  else edgeTimeCost o ed * edgePreferenceNoPush o ee ed

/-- The cost actually accumulated at edge-expansion: `edge_cost` followed by
the push-the-bike multiplier `×5.0`/`×2.0` applied in `route`
(vrouter.c lines 834-837 forward, 897-900 backward — identical code). -/
def expandCost (o : RouteOptions) (ee : EdgeEnd) (ed : EdgeDetails) : ℚ :=
  let cost := edge_cost o ee ed
  if ee.has_bike = false ∧ ee.has_ped = true then
    cost * (if o.avoid_pushing then 5.0 else 2.0)
  else cost

/-! ### Binary min-heap (vrouter.c lines 352-414). The C `heap_push_fwd` /
`heap_push_bwd` (and pop) pairs are identical up to the global array; they
are embedded once over an explicit `Heap` value. The backing array is a
total function; slots at indices `≥ size` are never read before being
written, matching the C `malloc`ed buffer. -/

/-- Writing one slot of a function-modelled array. -/
def upd {α : Type} (f : Nat → α) (i : Nat) (v : α) : Nat → α :=
  fun j => if j = i then v else f j

/-- Heap capacity `MAX_HEAP` (vrouter.c line 45). -/
def MAX_HEAP : Nat := 1000000

structure Heap where
  arr : Nat → HeapEntry
  size : Nat

def emptyHeap : Heap := ⟨fun _ => ⟨0, 0, 0, ⟨0, 0⟩, ⟨0, 0⟩, 0⟩, 0⟩

/-- The bubble-up loop of `heap_push` (vrouter.c lines 357-364). The fuel is
the starting index: each step moves to the parent `(i-1)/2 < i`, so fuel `i`
always suffices and the fuel-exhaustion branch is unreachable. -/
def bubbleUp : Nat → (Nat → HeapEntry) → Nat → (Nat → HeapEntry)
  | 0, a, _ => a
  | fuel+1, a, i =>
    if i = 0 then a
    else if (a ((i - 1) / 2)).f ≤ (a i).f then a
    else bubbleUp fuel (upd (upd a ((i - 1) / 2) (a i)) i (a ((i - 1) / 2))) ((i - 1) / 2)

/-- `heap_push` (vrouter.c lines 353-365): dropped when the heap is full. -/
def heap_push (h : Heap) (e : HeapEntry) : Heap :=
  if h.size ≥ MAX_HEAP then h
  else ⟨bubbleUp h.size (upd h.arr h.size e) h.size, h.size + 1⟩

/-- The `smallest` child computation of one sift-down step
(vrouter.c lines 372-374): the left child if it is in range and smaller,
then the right child if it is in range and smaller than that. -/
def siftTarget (a : Nat → HeapEntry) (n i : Nat) : Nat :=
  if 2 * i + 2 < n ∧ (a (2 * i + 2)).f <
      (a (if 2 * i + 1 < n ∧ (a (2 * i + 1)).f < (a i).f then 2 * i + 1 else i)).f
  then 2 * i + 2
  else if 2 * i + 1 < n ∧ (a (2 * i + 1)).f < (a i).f then 2 * i + 1 else i

/-- The sift-down loop of `heap_pop` (vrouter.c lines 370-380). The fuel is
the heap size: the index strictly increases each step and stays `< n`, so
fuel `n` always suffices. -/
def siftDown : Nat → (Nat → HeapEntry) → Nat → Nat → (Nat → HeapEntry)
  | 0, a, _, _ => a
  | fuel+1, a, n, i =>
    if siftTarget a n i = i then a
    else siftDown fuel (upd (upd a i (a (siftTarget a n i))) (siftTarget a n i) (a i)) n
      (siftTarget a n i)

/-- `heap_pop` (vrouter.c lines 367-382); only called with `size > 0`. -/
def heap_pop (h : Heap) : HeapEntry × Heap :=
  let ret := h.arr 0
  let n := h.size - 1
  let a := upd h.arr 0 (h.arr n)
  (ret, ⟨siftDown n a n 0, n⟩)

/-- All live entries of a heap satisfy `P`. -/
def heapAll (P : HeapEntry → Prop) (h : Heap) : Prop :=
  ∀ i, i < h.size → P (h.arr i)

/-! ### Visited set (vrouter.c lines 420-495): open-addressed table of
`MAX_VISITED` slots, FNV-1a-style hash, linear probing bounded by 2000
slots. The fwd/bwd function pairs are identical up to the global array and
are embedded once over an explicit table value. -/

/-- `MAX_VISITED` (vrouter.c line 46). -/
def MAXV : Nat := 2000003

def VTable : Type := Nat → VisitedEntry

/-- The all-zero table produced by `visited_clear_both` (memset 0). -/
def emptyVisited : VTable := fun _ => ⟨⟨0, 0⟩, ⟨0, 0⟩, 0, 0, false⟩

/-- `hash_state` (vrouter.c lines 425-433): FNV-1a-style over the two u32
fields, with 64-bit wrap-around multiplication, reduced mod `MAX_VISITED`. -/
def hash_state (s : State) : Nat :=
  let h1 := (14695981039346656037 ^^^ s.tile_id) * 1099511628211 % 2 ^ 64
  let h2 := (h1 ^^^ s.node_id) * 1099511628211 % 2 ^ 64
  h2 % MAXV

/-- The probe loop of `visited_find` (vrouter.c lines 436-447 and 467-478):
`rem` probes remaining, `i` the current probe offset. -/
def probeFindAux (t : VTable) (s : State) (h : Nat) : Nat → Nat → Option VisitedEntry
  | 0, _ => none
  | rem+1, i =>
    let idx := (h + i) % MAXV
    if (t idx).valid = false then none
    else if (t idx).state = s then some (t idx)
    else probeFindAux t s h rem (i + 1)

def visited_find (t : VTable) (s : State) : Option VisitedEntry :=
  probeFindAux t s (hash_state s) 2000 0

/-- The probe loop of `visited_insert` (vrouter.c lines 449-464 and 480-495):
writes the first free or matching slot; a full probe window drops the
insertion (returns the table unchanged). -/
def probeInsAux (t : VTable) (s : State) (g : ℚ) (p : State) (pe : Nat) (h : Nat) :
    Nat → Nat → VTable
  | 0, _ => t
  | rem+1, i =>
    let idx := (h + i) % MAXV
    if (t idx).valid = false ∨ (t idx).state = s then
      upd t idx ⟨s, p, pe, g, true⟩
    else probeInsAux t s g p pe h rem (i + 1)

def visited_insert (t : VTable) (s : State) (g : ℚ) (p : State) (pe : Nat) : VTable :=
  probeInsAux t s g p pe (hash_state s) 2000 0

/-- Probe offset `k` of the window starting at hash `h` holds a valid entry
for a state other than `s` (the probe loops step past such slots). -/
abbrev probedOk (t : VTable) (s : State) (h k : Nat) : Prop :=
  (t ((h + k) % MAXV)).valid = true ∧ (t ((h + k) % MAXV)).state ≠ s

/-- The whole 2000-slot probe window of `s` is valid and holds other states:
exactly the situation in which `visited_insert` drops the insertion and
`visited_find` misses. -/
def windowExhausted (t : VTable) (s : State) : Prop :=
  ∀ k, k < 2000 → probedOk t s (hash_state s) k

/-! ### Search loop (`route`, vrouter.c lines 728-1005) -/

/-- The immutable context of one `route` call: the tile map, options, the
snap coordinates and the haversine oracle. -/
structure Ctx where
  tiles : Nat → Option Tile
  opts : RouteOptions
  start_lat : ℚ
  start_lon : ℚ
  end_lat : ℚ
  end_lon : ℚ
  hav : ℚ → ℚ → ℚ → ℚ → ℚ

/-- The mutable state of the bidirectional search. -/
structure Search where
  heap_fwd : Heap
  heap_bwd : Heap
  visited_fwd : VTable
  visited_bwd : VTable
  iterations : Nat
  meeting_point : State
  best_total_cost : ℚ

/-- `(int)max_speed` where `max_speed = 2 * kDefaultCyclingSpeed[type]`
(vrouter.c line 764): 50, 40, 36 or 32. -/
def maxSpeedOf (o : RouteOptions) : Nat :=
  (⌊(2 : ℚ) * kDefaultCyclingSpeed o.bicycle_type⌋).toNat

/-- The iteration cap (vrouter.c lines 783-785): straight-line metres
`/1000*30000`, truncated to int, clamped to `[10^6, 6*10^6]`. -/
def capOf (init_dist : ℚ) : Nat :=
  let m := (⌊init_dist / 1000 * 30000⌋).toNat
  if m < 1000000 then 1000000
  else if m > 6000000 then 6000000
  else m

/-- The edge indices the C for-loop visits at a node:
`ei` from `edge_index` while `ei < edge_index + edge_count ∧ ei < tile.edge_count`
(vrouter.c lines 821-823; the second bound makes the filter equal the C
early exit because the indices increase). -/
def edgeIndices (t : Tile) (n : Node) : List Nat :=
  ((List.range n.edge_count).map fun k => n.edge_index + k).filter fun ei => ei < t.edge_count

/-- One iteration of the expansion for-loop (vrouter.c lines 825-853
forward, 888-916 backward — identical up to direction), acting on the
direction's heap and visited table. -/
def expandStep (ctx : Ctx) (cur : HeapEntry) (tile : Tile) (tgt_lat tgt_lon : ℚ)
    (acc : Heap × VTable) (ei : Nat) : Heap × VTable :=
  match get_edge_end tile ei with
  | none => acc
  | some ee =>
    if ee.end_level ≠ 2 then acc
    else if ee.has_bike = false ∧ ee.has_ped = false then acc
    else match get_edge_details tile ei with
      | none => acc
      | some ed =>
        if ed.surface > kWorstAllowedSurface ctx.opts.bicycle_type then acc
        else
          let new_g := cur.g + expandCost ctx.opts ee ed
          let ns : State := ⟨ee.end_tile_id, ee.end_node_id⟩
          let skip : Bool := match visited_find acc.2 ns with
            | some nve => decide (new_g ≥ nve.g)
            | none => false
          if skip = true then acc
          else match ctx.tiles ns.tile_id with
            | none => acc
            | some ntile =>
              if ns.node_id ≥ ntile.node_count then acc
              else
                let nn := ntile.nodes ns.node_id
                let h := ctx.hav nn.lat nn.lon tgt_lat tgt_lon * kSpeedFactor (maxSpeedOf ctx.opts)
                let ne : HeapEntry := ⟨new_g + h, new_g, cur.dist + ed.length, ns, cur.state, ei⟩
                (heap_push acc.1 ne, visited_insert acc.2 ns new_g cur.state ei)

/-- Meeting-point bookkeeping (vrouter.c lines 804-813 / 867-876): after a
pop, look the state up in the opposite direction's table and keep the
cheapest total. -/
def meetUpdate (s : Search) (opp : VTable) (cur : HeapEntry) : Search :=
  match visited_find opp cur.state with
  | some ove =>
    let total := cur.g + ove.g
    if total < s.best_total_cost then
      { s with best_total_cost := total, meeting_point := cur.state }
    else s
  | none => s

/-- The forward half of the loop body after the stale check (vrouter.c
lines 804-854): meeting-point bookkeeping, tile load, edge expansion. -/
def stepFwdRest (ctx : Ctx) (s1 : Search) (cur : HeapEntry) : Search :=
  let s2 := meetUpdate s1 s1.visited_bwd cur
  match ctx.tiles cur.state.tile_id with
  | none => s2
  | some tile =>
    if cur.state.node_id ≥ tile.node_count then s2
    else
      let node := tile.nodes cur.state.node_id
      let hv := (edgeIndices tile node).foldl
        (expandStep ctx cur tile ctx.end_lat ctx.end_lon) (s2.heap_fwd, s2.visited_fwd)
      { s2 with heap_fwd := hv.1, visited_fwd := hv.2 }

/-- The forward half of the loop body (vrouter.c lines 796-855). Every C
`goto do_backward` just ends the forward half, so it is direct-style. -/
def stepFwd (ctx : Ctx) (s : Search) : Search :=
  if s.heap_fwd.size > 0 then
    let pr := heap_pop s.heap_fwd
    let cur := pr.1
    let s1 := { s with heap_fwd := pr.2, iterations := s.iterations + 1 }
    match visited_find s1.visited_fwd cur.state with
    | some ve => if cur.g > ve.g then s1 else stepFwdRest ctx s1 cur
    | none => stepFwdRest ctx s1 cur
  else s

/-- The backward half of the loop body after the stale check (vrouter.c
lines 867-917). The flag is true where the C code `continue`s. -/
def stepBwdRest (ctx : Ctx) (s1 : Search) (cur : HeapEntry) : Search × Bool :=
  let s2 := meetUpdate s1 s1.visited_fwd cur
  match ctx.tiles cur.state.tile_id with
  | none => (s2, true)
  | some tile =>
    if cur.state.node_id ≥ tile.node_count then (s2, true)
    else
      let node := tile.nodes cur.state.node_id
      let hv := (edgeIndices tile node).foldl
        (expandStep ctx cur tile ctx.start_lat ctx.start_lon) (s2.heap_bwd, s2.visited_bwd)
      ({ s2 with heap_bwd := hv.1, visited_bwd := hv.2 }, false)

/-- The backward half of the loop body (vrouter.c lines 859-918). Its C
`continue` statements skip the early-termination check at the bottom of the
loop; the returned flag records that. -/
def stepBwd (ctx : Ctx) (s : Search) : Search × Bool :=
  if s.heap_bwd.size > 0 then
    let pr := heap_pop s.heap_bwd
    let cur := pr.1
    let s1 := { s with heap_bwd := pr.2, iterations := s.iterations + 1 }
    match visited_find s1.visited_bwd cur.state with
    | some ve => if cur.g > ve.g then (s1, true) else stepBwdRest ctx s1 cur
    | none => stepBwdRest ctx s1 cur
  else (s, false)

/-- The minimum f in a heap, `1e18` when it is empty (vrouter.c lines
928-929). -/
def minF (h : Heap) : ℚ :=
  if h.size > 0 then (h.arr 0).f else (1e18 : ℚ)

/-- One round of the while loop (vrouter.c lines 793-935): forward half,
backward half, then — unless the backward half `continue`d — the
early-termination test (lines 927-934). The returned flag is the C
`break`. -/
def bodyStep (ctx : Ctx) (s : Search) : Search × Bool :=
  let s1 := stepFwd ctx s
  let pb := stepBwd ctx s1
  if pb.2 then (pb.1, false)
  else if pb.1.meeting_point.tile_id ≠ 0 ∧
      minF pb.1.heap_fwd + minF pb.1.heap_bwd ≥ pb.1.best_total_cost then
    (pb.1, true)
  else (pb.1, false)

/-- The search while-loop (vrouter.c line 793): runs while a heap is
non-empty and `iterations < cap`. The fuel only bounds the recursion; the
loop body always increases `iterations`, so `route` passes fuel `cap + 1`,
which can never be exhausted before the cap condition stops the loop. -/
def searchLoop (ctx : Ctx) (cap : Nat) : Nat → Search → Search
  | 0, s => s
  | fuel+1, s =>
    if (s.heap_fwd.size > 0 ∨ s.heap_bwd.size > 0) ∧ s.iterations < cap then
      let pr := bodyStep ctx s
      if pr.2 then pr.1 else searchLoop ctx cap fuel pr.1
    else s

/-- `MAX_PATH` (vrouter.c line 47). -/
def MAX_PATH : Nat := 200000

/-- A parent-pointer walk during path reconstruction (vrouter.c lines
950-960 forward and 977-986 backward: identical loops). Counts visited
states; stops on the null state, on `MAX_PATH`, on a missing visited entry,
or on reaching `anchor` with a null parent. Each step uses one unit of fuel
and either stops or increments `len`, so fuel `MAX_PATH` yields exactly the
C count. -/
def walkPath (vt : VTable) (anchor : State) : Nat → State → Nat → Nat
  | 0, _, len => len
  | fuel+1, s, len =>
    if s = ⟨0, 0⟩ then len
    else if len ≥ MAX_PATH then len
    else
      let len := len + 1
      match visited_find vt s with
      | none => len
      | some ve =>
        if ve.parent = ⟨0, 0⟩ ∧ s = anchor then len
        else walkPath vt anchor fuel ve.parent len

/-- The search state reached by `route` when the main loop ends: `none` if
`route` bails out on an invalid start or end (vrouter.c lines 749-756),
otherwise the final `Search` after initialisation (lines 762-780) and the
loop. -/
def routeFinal (hav : ℚ → ℚ → ℚ → ℚ → ℚ) (tiles : Nat → Option Tile) (o : RouteOptions)
    (start_tile_id start_node end_tile_id end_node : Nat) (end_lat end_lon : ℚ) :
    Option Search :=
  match tiles start_tile_id with
  | none => none
  | some start_tile =>
    if start_node ≥ start_tile.node_count then none
    else match tiles end_tile_id with
      | none => none
      | some end_tile =>
        if end_node ≥ end_tile.node_count then none
        else
          let sn := start_tile.nodes start_node
          let init_dist := hav sn.lat sn.lon end_lat end_lon
          let start_state : State := ⟨start_tile_id, start_node⟩
          let end_state : State := ⟨end_tile_id, end_node⟩
          let h0 := init_dist * kSpeedFactor (maxSpeedOf o)
          let hf0 := heap_push emptyHeap ⟨h0, 0, 0, start_state, ⟨0, 0⟩, 0⟩
          let vf0 := visited_insert emptyVisited start_state 0 ⟨0, 0⟩ 0
          let hb0 := heap_push emptyHeap ⟨h0, 0, 0, end_state, ⟨0, 0⟩, 0⟩
          let vb0 := visited_insert emptyVisited end_state 0 ⟨0, 0⟩ 0
          let ctx : Ctx := ⟨tiles, o, sn.lat, sn.lon, end_lat, end_lon, hav⟩
          let cap := capOf init_dist
          some (searchLoop ctx cap (cap + 1) ⟨hf0, hb0, vf0, vb0, 0, ⟨0, 0⟩, 1e18⟩)

/-- `route` (vrouter.c lines 728-1005): returns the reconstructed path
length, or 0 on invalid endpoints or when `meeting_point.tile_id == 0`
(lines 938-942). The combined length is `min (fwd+bwd) MAX_PATH` because
both copy loops stop at `MAX_PATH` (lines 989-995). -/
def route (hav : ℚ → ℚ → ℚ → ℚ → ℚ) (tiles : Nat → Option Tile) (o : RouteOptions)
    (start_tile_id start_node end_tile_id end_node : Nat) (end_lat end_lon : ℚ) : Nat :=
  match routeFinal hav tiles o start_tile_id start_node end_tile_id end_node end_lat end_lon with
  | none => 0
  | some fin =>
    if fin.meeting_point.tile_id = 0 then 0
    else
      let start_state : State := ⟨start_tile_id, start_node⟩
      let end_state : State := ⟨end_tile_id, end_node⟩
      let fwd_len := walkPath fin.visited_fwd start_state MAX_PATH fin.meeting_point 0
      let bstart := match visited_find fin.visited_bwd fin.meeting_point with
        | some ve => ve.parent
        | none => fin.meeting_point
      let bwd_len := walkPath fin.visited_bwd end_state MAX_PATH bstart 0
      min (fwd_len + bwd_len) MAX_PATH

/-! ### Nearest-node locator (`find_nearest_node`, vrouter.c lines 636-674) -/

/-- The inner scan for a bike- or pedestrian-accessible edge at a node
(vrouter.c lines 647-657). -/
def nodeHasBikeEdge (t : Tile) (n : Node) : Bool :=
  (edgeIndices t n).any fun ei =>
    match get_edge_end t ei with
    | none => false
    | some ee => ee.has_bike || ee.has_ped

/-- Accumulator of the nearest-node scan. -/
structure NNAcc where
  best : Nat
  best_dist : ℚ
  best_bike : Nat
  best_bike_dist : ℚ

/-- `find_nearest_node` (vrouter.c lines 636-674), with the haversine from
the query point to node `i` provided by the `hav` oracle. Nodes without
edges are skipped; the bike-accessible candidate wins when it is within
500 m or within twice the nearest distance. -/
def find_nearest_node (hav : ℚ → ℚ → ℚ → ℚ → ℚ) (lat lon : ℚ) (t : Tile) : Nat :=
  let acc := (List.range t.node_count).foldl
    (fun acc i =>
      let nd := t.nodes i
      if nd.edge_count = 0 then acc
      else
        let d := hav lat lon nd.lat nd.lon
        let acc1 := if nodeHasBikeEdge t nd ∧ d < acc.best_bike_dist then
            { acc with best_bike_dist := d, best_bike := i } else acc
        if d < acc1.best_dist then { acc1 with best_dist := d, best := i } else acc1)
    (⟨0, 1e18, 0, 1e18⟩ : NNAcc)
  if acc.best_bike_dist < 500 ∨ acc.best_bike_dist < acc.best_dist * 2 then acc.best_bike
  else acc.best

/-! ### `main` (vrouter.c lines 1011-1113): tile-id arithmetic, snapping,
routing and the three possible outputs. Argument parsing/clamping and JSON
layout are outside the routing core. -/

/-- The three stdout outcomes of `main`: the `tile_load_failed` error object,
the `no_path` error object, or the success object (with the path length the
coordinate list is generated from). -/
inductive Output where
  | tile_load_failed
  | no_path
  | success (path_len : Nat)
deriving DecidableEq

/-- Level-2 tile id of a coordinate (vrouter.c lines 1051-1057):
`row * 1440 + col` with 0.25° cells. -/
def tileIdOf (lat lon : ℚ) : Nat :=
  let row := (⌊(lat + 90) / 0.25⌋).toNat
  let col := (⌊(lon + 180) / 0.25⌋).toNat
  row * 1440 + col

/-- `main` after argument parsing (vrouter.c lines 1050-1099): load both
snap tiles (fatal if either is missing), snap with `find_nearest_node`,
route, and emit `no_path` on a zero-length result. -/
def mainModel (hav : ℚ → ℚ → ℚ → ℚ → ℚ) (tiles : Nat → Option Tile) (o : RouteOptions)
    (from_lat from_lon to_lat to_lon : ℚ) : Output :=
  let from_tile_id := tileIdOf from_lat from_lon
  let to_tile_id := tileIdOf to_lat to_lon
  match tiles from_tile_id, tiles to_tile_id with
  | some from_tile, some to_tile =>
    let start_node := find_nearest_node hav from_lat from_lon from_tile
    let end_node := find_nearest_node hav to_lat to_lon to_tile
    let path_len := route hav tiles o from_tile_id start_node to_tile_id end_node to_lat to_lon
    if path_len = 0 then Output.no_path else Output.success path_len
  | _, _ => Output.tile_load_failed

/-! ### Auxiliary predicates for the search invariants -/

/-- A state is either present in the table or its whole probe window is
exhausted (the one situation in which its insertions are dropped). Both
disjuncts are stable under further insertions. -/
def membOrExh (t : VTable) (s : State) : Prop :=
  visited_find t s ≠ none ∨ windowExhausted t s

/-- Invariant of the search state: a recorded meeting point outside the
null tile is accounted for in both visited tables (or its window is
exhausted), and every frontier entry's state is accounted for in its own
direction's table (or its window is exhausted). -/
def searchInv (s : Search) : Prop :=
  (s.meeting_point.tile_id ≠ 0 →
    membOrExh s.visited_fwd s.meeting_point ∧ membOrExh s.visited_bwd s.meeting_point) ∧
  heapAll (fun e => membOrExh s.visited_fwd e.state) s.heap_fwd ∧
  heapAll (fun e => membOrExh s.visited_bwd e.state) s.heap_bwd

/-! ### Concrete fixtures (tiles, edges, tables, heaps) used to instantiate
the theorems below at specific inputs -/

/-- The router's default options: `use_roads 0.25`, `use_hills 0.25`,
Mountain bike, no avoid_pushing, no avoid_cars (vrouter.c lines 124-128). -/
def defaultOptions : RouteOptions :=
  { use_roads := 0.25, use_hills := 0.25, bicycle_type := 3
    avoid_pushing := false, avoid_cars := false }

/-- A push-the-bike edge end: pedestrian access only. -/
def eePush : EdgeEnd :=
  { end_level := 2, end_tile_id := 100, end_node_id := 7
    has_bike := false, has_ped := true, has_car := false }

/-- A bike-accessible edge end. -/
def eeBike : EdgeEnd :=
  { end_level := 2, end_tile_id := 100, end_node_id := 7
    has_bike := true, has_ped := true, has_car := false }

/-- A 100 m footway edge (use 25), flat grade, paved. -/
def edFootway : EdgeDetails :=
  { length := 100, use := 25, classification := 4, cycle_lane := 0, surface := 0
    speed := 15, bike_network := false, lanecount := 1, use_sidepath := false
    dismount := false, shoulder := false, weighted_grade := 7 }

/-- A 100 m mountain-bike trail edge (use 21), grade bucket 1 (downhill),
paved-grade surface. -/
def edMtbTrail : EdgeDetails :=
  { length := 100, use := 21, classification := 4, cycle_lane := 0, surface := 0
    speed := 15, bike_network := false, lanecount := 1, use_sidepath := false
    dismount := false, shoulder := false, weighted_grade := 1 }

/-- A 100 m flight of steps (use 26). -/
def edSteps : EdgeDetails :=
  { length := 100, use := 26, classification := 4, cycle_lane := 0, surface := 0
    speed := 15, bike_network := false, lanecount := 1, use_sidepath := false
    dismount := false, shoulder := false, weighted_grade := 7 }

/-- A 100 m ferry edge (use 41) at 20 km/h. -/
def edFerry : EdgeDetails :=
  { length := 100, use := 41, classification := 4, cycle_lane := 0, surface := 0
    speed := 20, bike_network := false, lanecount := 1, use_sidepath := false
    dismount := false, shoulder := false, weighted_grade := 7 }

/-- A zero-length flight of steps. -/
def edStepsZero : EdgeDetails :=
  { length := 0, use := 26, classification := 4, cycle_lane := 0, surface := 0
    speed := 15, bike_network := false, lanecount := 1, use_sidepath := false
    dismount := false, shoulder := false, weighted_grade := 7 }

/-- A visited table with every slot occupied by the state `(1,1)`. -/
def tblFull : VTable := fun _ => ⟨⟨1, 1⟩, ⟨0, 0⟩, 0, 0, true⟩

/-- A state distinct from the occupant of `tblFull`. -/
def sProbe : State := ⟨2, 2⟩

/-- The all-zero heap entry. -/
def e0 : HeapEntry := ⟨0, 0, 0, ⟨0, 0⟩, ⟨0, 0⟩, 0⟩

/-- A heap already holding `MAX_HEAP` entries. -/
def fullHeap : Heap := ⟨fun _ => e0, 1000000⟩

/-- A context whose tile map is empty: every expansion finds no tile. -/
def drainCtx : Ctx := ⟨fun _ => none, defaultOptions, 0, 0, 0, 0, fun _ _ _ _ => 0⟩

/-- A search state with one (dummy) frontier entry in each heap. -/
def drainSearch : Search :=
  ⟨⟨fun _ => e0, 1⟩, ⟨fun _ => e0, 1⟩, emptyVisited, emptyVisited, 0, ⟨0, 0⟩, 0⟩

/-- A tile holding one node (at lat/lon 1,1) with one edge whose raw record
grants pedestrian access (byte 24, the low byte of word 3) and has
`end_level 0`. -/
def cexFarTile : Tile :=
  { raw := fun i => if i = 24 then 2 else 0
    raw_size := 48
    node_count := 1
    edge_count := 1
    edges_offset := 0
    nodes := fun _ => ⟨1, 1, 0, 1⟩ }

/-- A tile map holding `cexFarTile` at tile id 519120 (the level-2 tile of
coordinate (0,0)). -/
def cexFarTiles : Nat → Option Tile := fun t => if t = 519120 then some cexFarTile else none

/-- A haversine oracle that reports 6 km for every pair of points. -/
def havSixKm : ℚ → ℚ → ℚ → ℚ → ℚ := fun _ _ _ _ => 6000

/-- A tile with no nodes at all. -/
def emptyTile : Tile := ⟨fun _ => 0, 272, 0, 0, 272, fun _ => ⟨0, 0, 0, 0⟩⟩

/-- A tile map holding `emptyTile` at tile id 519120. -/
def emptyTiles : Nat → Option Tile := fun t => if t = 519120 then some emptyTile else none

/-- A tile whose single 48-byte edge record has the 46-bit endnode
`2 + 100·8 + 7·2^25` (level 2, tile 100, node 7) in its first word. -/
def tEdge : Tile :=
  { raw := fun i => if i = 0 then 34 else if i = 1 then 3 else if i = 3 then 14 else 0
    raw_size := 48
    node_count := 0
    edge_count := 1
    edges_offset := 0
    nodes := fun _ => ⟨0, 0, 0, 0⟩ }

/-- The decode of `tEdge`'s single edge. -/
def eeDecoded : EdgeEnd :=
  { end_level := 2, end_tile_id := 100, end_node_id := 7
    has_bike := false, has_ped := false, has_car := false }

/-- The snap state of the far-node run: node 0 of tile 519120. -/
def ssFar : State := ⟨519120, 0⟩

/-- The initial frontier entry of either direction in the far-node run; the
heuristic value is abstracted as `q` because it is never compared during
the run. -/
def heFarQ (q : ℚ) : HeapEntry := ⟨q, 0, 0, ssFar, ⟨0, 0⟩, 0⟩

/-- Either initial one-entry heap of the far-node run. -/
def hpFarQ (q : ℚ) : Heap := heap_push emptyHeap (heFarQ q)

/-- Either heap of the far-node run after its single pop. -/
def popFarQ (q : ℚ) : Heap := (heap_pop (hpFarQ q)).2

/-- Either initial visited table of the far-node run. -/
def vfFar : VTable := visited_insert emptyVisited ssFar 0 ⟨0, 0⟩ 0

/-- The search context of the far-node `route` call. -/
def ctxFar : Ctx := ⟨cexFarTiles, defaultOptions, 1, 1, 0, 0, havSixKm⟩

/-- The decoded single edge of `cexFarTile`: pedestrian access only, and
`end_level 0`, so the expansion loop skips it. -/
def eeFar : EdgeEnd := ⟨0, 0, 0, false, true, false⟩

/-- A tile holding a single node (at lat/lon 1,1) with no edges at all. -/
def isoTile : Tile := ⟨fun _ => 0, 16, 1, 0, 16, fun _ => ⟨1, 1, 0, 0⟩⟩

/-- A tile map with `isoTile` at the snap tiles of (0,0) and (1,1): the two
frontiers each hold one isolated node and can never meet. -/
def isoTiles : Nat → Option Tile :=
  fun t => if t = 519120 then some isoTile else
    if t = 524884 then some isoTile else none

/-- The backward snap state of the never-meeting run: node 0 of tile
524884. -/
def sIso1 : State := ⟨524884, 0⟩

/-- The initial backward frontier entry of the never-meeting run. -/
def heIso1 (q : ℚ) : HeapEntry := ⟨q, 0, 0, sIso1, ⟨0, 0⟩, 0⟩

/-- The initial backward heap of the never-meeting run. -/
def hpIso1 (q : ℚ) : Heap := heap_push emptyHeap (heIso1 q)

/-- The backward heap of the never-meeting run after its single pop. -/
def popIso1 (q : ℚ) : Heap := (heap_pop (hpIso1 q)).2

/-- The initial backward visited table of the never-meeting run. -/
def vbIso1 : VTable := visited_insert emptyVisited sIso1 0 ⟨0, 0⟩ 0

/-- The search context of the never-meeting `route` call. -/
def ctxIso : Ctx := ⟨isoTiles, defaultOptions, 1, 1, 1, 1, havSixKm⟩

/-! ## Theorems

First, one-step unfolding equations for the fuel-indexed loops, so they can
be rewritten at arbitrary fuel values. -/

theorem probeFindAux_eq (t : VTable) (s : State) (h rem i : Nat) :
    probeFindAux t s h rem i =
      if rem = 0 then none
      else
        let idx := (h + i) % MAXV
        if (t idx).valid = false then none
        else if (t idx).state = s then some (t idx)
        else probeFindAux t s h (rem - 1) (i + 1) := by
  cases rem <;> simp [probeFindAux]

theorem probeInsAux_eq (t : VTable) (s : State) (g : ℚ) (p : State) (pe h rem i : Nat) :
    probeInsAux t s g p pe h rem i =
      if rem = 0 then t
      else
        let idx := (h + i) % MAXV
        if (t idx).valid = false ∨ (t idx).state = s then
          upd t idx ⟨s, p, pe, g, true⟩
        else probeInsAux t s g p pe h (rem - 1) (i + 1) := by
  cases rem <;> simp [probeInsAux]

theorem searchLoop_eq (ctx : Ctx) (cap fuel : Nat) (s : Search) :
    searchLoop ctx cap fuel s =
      if fuel = 0 then s
      else if (s.heap_fwd.size > 0 ∨ s.heap_bwd.size > 0) ∧ s.iterations < cap then
        let pr := bodyStep ctx s
        if pr.2 then pr.1 else searchLoop ctx cap (fuel - 1) pr.1
      else s := by
  cases fuel <;> simp [searchLoop]

theorem walkPath_eq (vt : VTable) (anchor : State) (fuel : Nat) (s : State) (len : Nat) :
    walkPath vt anchor fuel s len =
      if fuel = 0 then len
      else if s = ⟨0, 0⟩ then len
      else if len ≥ MAX_PATH then len
      else
        match visited_find vt s with
        | none => len + 1
        | some ve =>
          if ve.parent = ⟨0, 0⟩ ∧ s = anchor then len + 1
          else walkPath vt anchor (fuel - 1) ve.parent (len + 1) := by
  cases fuel <;> simp [walkPath]

/-- C5. `get_edge_end` and `get_edge_details` return absent exactly when
`idx ≥ edge_count` or `edges_offset + (idx+1)·48 > raw_size`, and succeed
otherwise (vrouter.c lines 296-299 and 318-321: the two guards are
identical, with `off + EDGE_SIZE = edges_offset + (idx+1)·48`). -/
theorem edge_decoders_absent_iff (t : Tile) (idx : Nat) :
    (get_edge_end t idx = none ↔
      idx ≥ t.edge_count ∨ t.edges_offset + (idx + 1) * 48 > t.raw_size) ∧
    (get_edge_details t idx = none ↔
      idx ≥ t.edge_count ∨ t.edges_offset + (idx + 1) * 48 > t.raw_size) := by
  constructor
  · simp only [get_edge_end]
    split
    · simp; omega
    · split
      · simp; omega
      · simp; omega
  · simp only [get_edge_details]
    split
    · simp; omega
    · split
      · simp; omega
      · simp; omega

/-- C7. Recomposing the decoded `(end_level, end_tile_id, end_node_id)` as
`end_level + end_tile_id·2³ + end_node_id·2²⁵` recovers exactly the low 46
bits of the edge's first 64-bit word (vrouter.c lines 301-307). -/
theorem edge_end_endnode_roundtrip (t : Tile) (idx : Nat) (ee : EdgeEnd)
    (h : get_edge_end t idx = some ee) :
    ee.end_level + ee.end_tile_id * 2 ^ 3 + ee.end_node_id * 2 ^ 25 =
      read_u64 t.raw (t.edges_offset + idx * 48) % 2 ^ 46 := by
  simp only [get_edge_end] at h
  split at h
  · exact absurd h (by simp)
  · split at h
    · exact absurd h (by simp)
    · rw [Option.some_inj] at h
      subst h
      have hlt : read_u64 t.raw (t.edges_offset + idx * 48) % 2 ^ 46 < 2 ^ 46 :=
        Nat.mod_lt _ (by norm_num)
      dsimp only
      omega

/-- Witness for C7 at a concrete tile: the single edge of `tEdge` decodes to
`eeDecoded`, and the recomposition equation holds there. -/
theorem edge_end_endnode_roundtrip_spot :
    get_edge_end tEdge 0 = some eeDecoded ∧
    eeDecoded.end_level + eeDecoded.end_tile_id * 2 ^ 3 + eeDecoded.end_node_id * 2 ^ 25 =
      read_u64 tEdge.raw (tEdge.edges_offset + 0 * 48) % 2 ^ 46 :=
  ⟨by decide, edge_end_endnode_roundtrip tEdge 0 eeDecoded (by decide)⟩

/-- Decode invariant: a decoded edge's grade bucket is never 0 (the decoder
replaces 0 by 7), so the grade speed factor 2.2 at bucket 0 is unreachable. -/
theorem decoded_grade_pos (t : Tile) (idx : Nat) (ed : EdgeDetails)
    (h : get_edge_details t idx = some ed) : 1 ≤ ed.weighted_grade := by
  simp only [get_edge_details] at h
  split at h
  · exact absurd h (by simp)
  · split at h
    · exact absurd h (by simp)
    · rw [Option.some_inj] at h
      subst h
      dsimp only
      split <;> omega

/-- C8 (amended). For edges of positive length the two special cases bypass
the generic formula: steps cost `length × kSpeedFactor 4 × 3`, ferries cost
`length × kSpeedFactor speed × 1.2` (vrouter.c lines 540-548). A
non-positive length instead hits the `1e9` sentinel first (line 538). -/
theorem steps_ferry_special_cases (o : RouteOptions) (ee : EdgeEnd) (ed : EdgeDetails)
    (hlen : 0 < ed.length) :
    (ed.use = 26 → edge_cost o ee ed = ed.length * kSpeedFactor 4 * 3) ∧
    (ed.use = 41 → edge_cost o ee ed = ed.length * kSpeedFactor ed.speed * 1.2) := by
  constructor <;> intro hu <;> simp [edge_cost, hu, not_le.mpr hlen]

/-- Witness for C8 at concrete steps and ferry edges. -/
theorem steps_ferry_special_cases_spot :
    (0 < edSteps.length ∧
      edge_cost defaultOptions eeBike edSteps = edSteps.length * kSpeedFactor 4 * 3) ∧
    (0 < edFerry.length ∧
      edge_cost defaultOptions eeBike edFerry =
        edFerry.length * kSpeedFactor edFerry.speed * 1.2) :=
  ⟨⟨by norm_num [edSteps],
    (steps_ferry_special_cases defaultOptions eeBike edSteps (by norm_num [edSteps])).1 rfl⟩,
   ⟨by norm_num [edFerry],
    (steps_ferry_special_cases defaultOptions eeBike edFerry (by norm_num [edFerry])).2 rfl⟩⟩

/-- Counterexample to C8 as stated: a steps edge of length 0 costs the `1e9`
sentinel (vrouter.c line 538), not `length × kSpeedFactor 4 × 3 = 0`. -/
theorem steps_cost_zero_length_cex :
    edStepsZero.use = 26 ∧
    edge_cost defaultOptions eeBike edStepsZero ≠
      edStepsZero.length * kSpeedFactor 4 * 3 := by
  refine ⟨rfl, ?_⟩
  norm_num [edge_cost, edStepsZero, kSpeedFactor]

/-- The preference multiplier factors as the push-free multiplier times the
in-cost-model push factor (`×2.0` with avoid_pushing, `×1.3` without),
because the avoid-cars factor applied afterwards is itself multiplicative
(vrouter.c lines 605-627). -/
theorem edgePreference_push_split (o : RouteOptions) (ee : EdgeEnd) (ed : EdgeDetails)
    (hb : ee.has_bike = false) (hp : ee.has_ped = true) :
    edgePreference o ee ed =
      edgePreferenceNoPush o ee ed * (if o.avoid_pushing then 2.0 else 1.3) := by
  simp only [edgePreference, edgePreferenceNoPush, hb, hp, eq_self_iff_true, and_self,
    if_true, ite_true]
  split_ifs <;> ring

/-- C1 (amended). On a push-the-bike edge the total multiplier beyond the
base cost and the other preference factors is `1.3 × 2.0 = 2.6` normally
and `2.0 × 5.0 = 10` with avoid_pushing — the cost model already applies
`×1.3`/`×2.0` (vrouter.c line 607) before the edge-expansion `×2.0`/`×5.0`
(lines 834-837 and 897-900). Steps, ferry and non-positive-length edges
bypass the preference multiplier, so they get exactly `×2.0`/`×5.0`. -/
theorem push_total_multiplier (o : RouteOptions) (ee : EdgeEnd) (ed : EdgeDetails)
    (hb : ee.has_bike = false) (hp : ee.has_ped = true) :
    (ed.use ≠ 26 → ed.use ≠ 41 → ¬ed.length ≤ 0 →
      expandCost o ee ed =
        costWithoutPushFactor o ee ed * (if o.avoid_pushing then 10 else 2.6)) ∧
    (ed.use = 26 ∨ ed.use = 41 ∨ ed.length ≤ 0 →
      expandCost o ee ed =
        costWithoutPushFactor o ee ed * (if o.avoid_pushing then 5.0 else 2.0)) := by
  constructor
  · intro h26 h41 hlen
    simp only [expandCost, edge_cost, costWithoutPushFactor, hb, hp, h26, h41, hlen,
      if_false, ite_false, and_self, ite_true]
    rw [edgePreference_push_split o ee ed hb hp]
    cases h : o.avoid_pushing <;> simp [h] <;> ring
  · intro hcase
    have hcost : edge_cost o ee ed = costWithoutPushFactor o ee ed := by
      rcases hcase with h | h | h
      · simp [edge_cost, costWithoutPushFactor, h]
      · simp [edge_cost, costWithoutPushFactor, h]
      · simp [edge_cost, costWithoutPushFactor, h]
    simp only [expandCost, hb, hp, and_self, if_true, hcost, ite_true]

/-- Witness for C1 at a concrete pushing footway edge (generic formula) and
a concrete pushing steps edge (bypassing case). -/
theorem push_total_multiplier_spot :
    eePush.has_bike = false ∧ eePush.has_ped = true ∧
    expandCost defaultOptions eePush edFootway =
      costWithoutPushFactor defaultOptions eePush edFootway *
        (if defaultOptions.avoid_pushing then 10 else 2.6) ∧
    expandCost defaultOptions eePush edSteps =
      costWithoutPushFactor defaultOptions eePush edSteps *
        (if defaultOptions.avoid_pushing then 5.0 else 2.0) :=
  ⟨rfl, rfl,
   (push_total_multiplier defaultOptions eePush edFootway rfl rfl).1
     (by norm_num [edFootway]) (by norm_num [edFootway]) (by norm_num [edFootway]),
   (push_total_multiplier defaultOptions eePush edSteps rfl rfl).2 (Or.inl rfl)⟩

/-- Counterexample to C1 as stated: on a concrete pushing footway edge with
avoid_pushing unset, the expansion cost is not the push-free cost times 2.0
(it is the push-free cost times 2.6, since edge_cost already multiplied by
1.3 at vrouter.c line 607). -/
theorem push_total_multiplier_cex :
    eePush.has_bike = false ∧ eePush.has_ped = true ∧
    defaultOptions.avoid_pushing = false ∧
    expandCost defaultOptions eePush edFootway ≠
      costWithoutPushFactor defaultOptions eePush edFootway * 2.0 := by
  refine ⟨rfl, rfl, rfl, ?_⟩
  have h1 : edgeSpeed defaultOptions edFootway = 15.2 := by
    norm_num [edgeSpeed, rawCyclingSpeed, edFootway, defaultOptions, kDefaultCyclingSpeed,
      kSurfaceSpeedFactor, kGradeBasedSpeedFactor, kDismountSpeed]
  have h2 : edgeTimeCost defaultOptions edFootway = 450 / 19 := by
    rw [edgeTimeCost, h1]
    norm_num [edFootway]
  have h3 : edgePreference defaultOptions eePush edFootway = 0.95 * 1.3 := by
    norm_num [edgePreference, prefUseFactor, edFootway, eePush, defaultOptions]
  have h4 : edgePreferenceNoPush defaultOptions eePush edFootway = 0.95 := by
    norm_num [edgePreferenceNoPush, prefUseFactor, edFootway, eePush, defaultOptions]
  have hcost : edge_cost defaultOptions eePush edFootway =
      edgeTimeCost defaultOptions edFootway * edgePreference defaultOptions eePush edFootway := by
    norm_num [edge_cost, edFootway]
  have hnp : costWithoutPushFactor defaultOptions eePush edFootway =
      edgeTimeCost defaultOptions edFootway *
        edgePreferenceNoPush defaultOptions eePush edFootway := by
    norm_num [costWithoutPushFactor, edFootway]
  rw [expandCost, hcost, hnp, h2, h3, h4]
  norm_num [eePush, defaultOptions]

/-- The surface speed factor lies in `[0, 1]` on the index ranges the cost
model uses (type clamped by main, surface clamped to 7 in edge_cost). -/
theorem kSurfaceSpeedFactor_bounds (bt s : Nat) (hbt : bt < 4) (hs : s ≤ 7) :
    0 ≤ kSurfaceSpeedFactor bt s ∧ kSurfaceSpeedFactor bt s ≤ 1 := by
  interval_cases bt <;> interval_cases s <;> norm_num [kSurfaceSpeedFactor]

/-- For the reachable grade buckets (1..15 after decoding; clamped to 15)
the grade speed factor lies in `[0, 2]`. -/
theorem kGradeBasedSpeedFactor_bounds (g : Nat) (hg : 1 ≤ g) :
    0 ≤ kGradeBasedSpeedFactor g ∧ kGradeBasedSpeedFactor g ≤ 2 := by
  unfold kGradeBasedSpeedFactor
  split <;> first | omega | norm_num

/-- The default cycling speed of the four bicycle types lies in `[16, 25]`. -/
theorem kDefaultCyclingSpeed_bounds (bt : Nat) (hbt : bt < 4) :
    16 ≤ kDefaultCyclingSpeed bt ∧ kDefaultCyclingSpeed bt ≤ 25 := by
  interval_cases bt <;> norm_num [kDefaultCyclingSpeed]

/-- The computed cycling speed is at least 4 km/h (the lower clamp) and at
most twice the default cycling speed of the bicycle type — the grade factor
is at most 2 for decoded grades (bucket 0 is unreachable), the surface
factor is at most 1, the dismount speed 5.1 is below 32, and the upper
clamp only lowers the value (vrouter.c lines 551-567). -/
theorem edgeSpeed_bounds (o : RouteOptions) (ed : EdgeDetails)
    (hbt : o.bicycle_type < 4) (hg : 1 ≤ ed.weighted_grade) :
    4 ≤ edgeSpeed o ed ∧ edgeSpeed o ed ≤ 2 * kDefaultCyclingSpeed o.bicycle_type := by
  obtain ⟨hb1, hb2⟩ := kDefaultCyclingSpeed_bounds o.bicycle_type hbt
  obtain ⟨hs1, hs2⟩ := kSurfaceSpeedFactor_bounds o.bicycle_type (min ed.surface 7) hbt
    (by omega)
  obtain ⟨hg1, hg2⟩ := kGradeBasedSpeedFactor_bounds (min ed.weighted_grade 15) (by omega)
  have hraw : rawCyclingSpeed o ed ≤ 2 * kDefaultCyclingSpeed o.bicycle_type := by
    unfold rawCyclingSpeed
    split_ifs
    · rw [kDismountSpeed]; linarith
    · have t1 : kDefaultCyclingSpeed o.bicycle_type *
          kSurfaceSpeedFactor o.bicycle_type (min ed.surface 7) ≤
          kDefaultCyclingSpeed o.bicycle_type :=
        mul_le_of_le_one_right (by linarith) hs2
      have t2 : kDefaultCyclingSpeed o.bicycle_type *
          kSurfaceSpeedFactor o.bicycle_type (min ed.surface 7) *
          kGradeBasedSpeedFactor (min ed.weighted_grade 15) ≤
          kDefaultCyclingSpeed o.bicycle_type *
            kGradeBasedSpeedFactor (min ed.weighted_grade 15) :=
        mul_le_mul_of_nonneg_right t1 hg1
      have t3 : kDefaultCyclingSpeed o.bicycle_type *
          kGradeBasedSpeedFactor (min ed.weighted_grade 15) ≤
          kDefaultCyclingSpeed o.bicycle_type * 2 :=
        mul_le_mul_of_nonneg_left hg2 (by linarith)
      linarith
  unfold edgeSpeed
  split_ifs <;> constructor <;> linarith

/-- `(int)(2 × default_cycling_speed)` is exact for the four bicycle types:
its rational value is `2 × kDefaultCyclingSpeed` and it is positive. -/
theorem maxSpeedOf_exact (o : RouteOptions) (hbt : o.bicycle_type < 4) :
    ((maxSpeedOf o : Nat) : ℚ) = 2 * kDefaultCyclingSpeed o.bicycle_type ∧
      0 < maxSpeedOf o := by
  have h50 : Int.toNat 50 = 50 := rfl
  have h40 : Int.toNat 40 = 40 := rfl
  have h36 : Int.toNat 36 = 36 := rfl
  have h32 : Int.toNat 32 = 32 := rfl
  interval_cases h : o.bicycle_type <;>
    norm_num [maxSpeedOf, kDefaultCyclingSpeed, h, h50, h40, h36, h32]

/-- C2 (amended). For every decoded generic-formula edge (use not
steps/ferry) of positive length that passes the surface gate, the heuristic
contribution `length × kSpeedFactor(2 × default_cycling_speed)` is at most
the edge's base TIME cost `length / (speed / 3.6)` — but the edge's full
cost is the time cost times the preference multiplier, which can drop to
0.85, so the heuristic does not underestimate the full cost (see the
counterexample). -/
theorem heuristic_vs_time_cost (o : RouteOptions) (ee : EdgeEnd) (ed : EdgeDetails)
    (hbt : o.bicycle_type < 4) (hlen : 0 < ed.length) (hg : 1 ≤ ed.weighted_grade)
    (hsurf : ed.surface ≤ kWorstAllowedSurface o.bicycle_type)
    (h26 : ed.use ≠ 26) (h41 : ed.use ≠ 41) :
    ed.length * kSpeedFactor (maxSpeedOf o) ≤ edgeTimeCost o ed ∧
    edge_cost o ee ed = edgeTimeCost o ed * edgePreference o ee ed := by
  obtain ⟨hs4, hsle⟩ := edgeSpeed_bounds o ed hbt hg
  obtain ⟨hmeq, hmpos⟩ := maxSpeedOf_exact o hbt
  constructor
  · unfold edgeTimeCost kSpeedFactor
    rw [if_pos hmpos, hmeq]
    have h1 : ed.length * (3.6 / (2 * kDefaultCyclingSpeed o.bicycle_type)) =
        ed.length * 3.6 / (2 * kDefaultCyclingSpeed o.bicycle_type) := by ring
    have h2 : ed.length / (edgeSpeed o ed / 3.6) = ed.length * 3.6 / edgeSpeed o ed := by
      rw [div_div_eq_mul_div]
    rw [h1, h2]
    gcongr <;> linarith
  · simp [edge_cost, h26, h41, not_le.mpr hlen]

/-- Witness for C2 at the concrete mountain-bike-trail edge. -/
theorem heuristic_vs_time_cost_spot :
    defaultOptions.bicycle_type < 4 ∧ 0 < edMtbTrail.length ∧
    1 ≤ edMtbTrail.weighted_grade ∧
    edMtbTrail.surface ≤ kWorstAllowedSurface defaultOptions.bicycle_type ∧
    (edMtbTrail.length * kSpeedFactor (maxSpeedOf defaultOptions) ≤
        edgeTimeCost defaultOptions edMtbTrail ∧
      edge_cost defaultOptions eeBike edMtbTrail =
        edgeTimeCost defaultOptions edMtbTrail *
          edgePreference defaultOptions eeBike edMtbTrail) :=
  ⟨by decide, by norm_num [edMtbTrail], by decide, by decide,
   heuristic_vs_time_cost defaultOptions eeBike edMtbTrail (by decide)
     (by norm_num [edMtbTrail]) (by decide) (by decide) (by decide) (by decide)⟩

/-- Counterexample to C2 as stated: on a mountain-bike trail (use 21, 15%
preference bonus for the mountain type) at grade bucket 1 (speed factor
2.0, so the cycling speed reaches exactly `2 × 16` km/h), the full edge
cost falls strictly below the heuristic contribution — the heuristic
overestimates, so A* admissibility fails. -/
theorem heuristic_not_admissible_cex :
    edMtbTrail.surface ≤ kWorstAllowedSurface defaultOptions.bicycle_type ∧
    0 < edMtbTrail.length ∧
    edge_cost defaultOptions eeBike edMtbTrail <
      edMtbTrail.length * kSpeedFactor (maxSpeedOf defaultOptions) := by
  refine ⟨by decide, by norm_num [edMtbTrail], ?_⟩
  have h1 : edgeSpeed defaultOptions edMtbTrail = 32 := by
    norm_num [edgeSpeed, rawCyclingSpeed, edMtbTrail, defaultOptions, kDefaultCyclingSpeed,
      kSurfaceSpeedFactor, kGradeBasedSpeedFactor, kDismountSpeed]
  have h2 : edgePreference defaultOptions eeBike edMtbTrail = 0.85 := by
    norm_num [edgePreference, prefUseFactor, edMtbTrail, eeBike, defaultOptions]
  have h3 : edge_cost defaultOptions eeBike edMtbTrail =
      edgeTimeCost defaultOptions edMtbTrail *
        edgePreference defaultOptions eeBike edMtbTrail := by
    norm_num [edge_cost, edMtbTrail]
  rw [h3, h2, edgeTimeCost, h1]
  have h32 : Int.toNat 32 = 32 := rfl
  norm_num [edMtbTrail, kSpeedFactor, maxSpeedOf, defaultOptions, kDefaultCyclingSpeed, h32]

/-- C9. The heaps never exceed `MAX_HEAP = 10⁶` entries: a push onto a full
heap returns the heap unchanged (vrouter.c lines 353-355 and 385-387), a
push below capacity adds one entry, and a pop shrinks the heap. -/
theorem heap_capacity (h : Heap) (e : HeapEntry) :
    (h.size ≤ MAX_HEAP → (heap_push h e).size ≤ MAX_HEAP) ∧
    (h.size = MAX_HEAP → heap_push h e = h) ∧
    (heap_pop h).2.size ≤ h.size := by
  refine ⟨?_, ?_, ?_⟩
  · intro hle
    rw [heap_push]
    split
    · exact hle
    · simp only [MAX_HEAP] at *
      omega
  · intro heq
    rw [heap_push, if_pos (ge_of_eq heq)]
  · simp only [heap_pop]
    omega

/-- Witness for C9 at a heap of exactly `MAX_HEAP` entries: the push is
dropped, leaving contents and size unchanged. -/
theorem heap_capacity_spot :
    fullHeap.size ≤ MAX_HEAP ∧ fullHeap.size = MAX_HEAP ∧
    (heap_push fullHeap e0).size ≤ MAX_HEAP ∧ heap_push fullHeap e0 = fullHeap :=
  ⟨le_refl _, rfl, (heap_capacity fullHeap e0).1 (le_refl _),
   (heap_capacity fullHeap e0).2.1 rfl⟩

/-! Preservation of entry-wise properties by the heap operations (the
swaps of bubble-up and sift-down permute live entries). -/

theorem upd_all {α : Type} (P : α → Prop) (f : Nat → α) (n i : Nat) (v : α)
    (hf : ∀ j, j < n → j ≠ i → P (f j)) (hv : P v) :
    ∀ j, j < n → P (upd f i v j) := by
  intro j hj
  rw [upd]
  split
  · exact hv
  · exact hf j hj (by assumption)

theorem bubbleUp_all (P : HeapEntry → Prop) (n : Nat) :
    ∀ (fuel : Nat) (a : Nat → HeapEntry) (i : Nat), i < n → (∀ j, j < n → P (a j)) →
      ∀ j, j < n → P (bubbleUp fuel a i j) := by
  intro fuel
  induction fuel with
  | zero => intro a _ _ ha j hj; exact ha j hj
  | succ fuel ih =>
    intro a i hi ha j hj
    rw [bubbleUp]
    split
    · exact ha j hj
    · split
      · exact ha j hj
      · have hp : (i - 1) / 2 < n := by omega
        exact ih _ _ hp
          (upd_all P (upd a ((i - 1) / 2) (a i)) n i (a ((i - 1) / 2))
            (fun k hk _ => upd_all P a n ((i - 1) / 2) (a i)
              (fun m hm _ => ha m hm) (ha i hi) k hk)
            (ha _ hp)) j hj

theorem siftTarget_lt (a : Nat → HeapEntry) (n i : Nat) (hi : i < n) :
    siftTarget a n i < n := by
  rw [siftTarget]
  by_cases h2 : 2 * i + 2 < n ∧ (a (2 * i + 2)).f <
      (a (if 2 * i + 1 < n ∧ (a (2 * i + 1)).f < (a i).f then 2 * i + 1 else i)).f
  · rw [if_pos h2]
    exact h2.1
  · rw [if_neg h2]
    by_cases h1 : 2 * i + 1 < n ∧ (a (2 * i + 1)).f < (a i).f
    · rw [if_pos h1]
      exact h1.1
    · rw [if_neg h1]
      exact hi

theorem siftDown_all (P : HeapEntry → Prop) (n : Nat) :
    ∀ (fuel : Nat) (a : Nat → HeapEntry) (i : Nat), i < n → (∀ j, j < n → P (a j)) →
      ∀ j, j < n → P (siftDown fuel a n i j) := by
  intro fuel
  induction fuel with
  | zero => intro a _ _ ha j hj; exact ha j hj
  | succ fuel ih =>
    intro a i hi ha j hj
    rw [siftDown]
    split
    · exact ha j hj
    · have hs2 : siftTarget a n i < n := siftTarget_lt a n i hi
      exact ih _ _ hs2
        (upd_all P (upd a i (a (siftTarget a n i))) n (siftTarget a n i) (a i)
          (fun k hk _ => upd_all P a n i (a (siftTarget a n i))
            (fun m hm _ => ha m hm) (ha _ hs2) k hk)
          (ha i hi)) j hj

theorem heap_push_all (P : HeapEntry → Prop) (h : Heap) (e : HeapEntry)
    (hall : heapAll P h) (he : P e) : heapAll P (heap_push h e) := by
  rw [heap_push]
  split
  · exact hall
  · intro j hj
    rcases Nat.lt_or_ge h.size (h.size + 1) with _ | _
    · exact bubbleUp_all P (h.size + 1) h.size (upd h.arr h.size e) h.size (by omega)
        (upd_all P h.arr (h.size + 1) h.size e
          (fun k hk hk2 => hall k (by omega)) he) j hj
    · omega

theorem heap_pop_all (P : HeapEntry → Prop) (h : Heap) (hall : heapAll P h) :
    (0 < h.size → P (heap_pop h).1) ∧ heapAll P (heap_pop h).2 := by
  constructor
  · intro h0
    exact hall 0 h0
  · intro j hj
    simp only [heap_pop] at hj ⊢
    rcases Nat.eq_zero_or_pos (h.size - 1) with hz | hpos
    · omega
    · exact siftDown_all P (h.size - 1) (h.size - 1) (upd h.arr 0 (h.arr (h.size - 1))) 0 hpos
        (upd_all P h.arr (h.size - 1) 0 (h.arr (h.size - 1))
          (fun k hk _ => hall k (by omega)) (hall _ (by omega))) j hj

/-! Probe-window lemmas for the open-addressed visited set. Probe offsets
are absolute: offset `k` refers to slot `(h + k) % MAXV`; distinct offsets
within a window of fewer than `MAXV` probes address distinct slots. -/

theorem probe_idx_ne (h a b : Nat) (hab : a < b) (hb : b - a < MAXV) :
    (h + a) % MAXV ≠ (h + b) % MAXV := by
  intro he
  have h2 : MAXV ∣ h + b - (h + a) :=
    (Nat.modEq_iff_dvd' (by omega)).mp he
  have h3 : h + b - (h + a) = b - a := by omega
  rw [h3] at h2
  have h4 := Nat.le_of_dvd (by omega) h2
  omega

theorem probeFind_none (t : VTable) (s : State) (h : Nat) :
    ∀ rem i, (∀ k, i ≤ k → k < i + rem → probedOk t s h k) →
      probeFindAux t s h rem i = none := by
  intro rem
  induction rem with
  | zero => intro i _; rfl
  | succ rem ih =>
    intro i hall
    obtain ⟨hv, hs⟩ := hall i (le_refl i) (by omega)
    simp only [probeFindAux]
    rw [if_neg (by rw [hv]; simp), if_neg hs]
    exact ih (i + 1) (fun k hk1 hk2 => hall k (by omega) (by omega))

theorem probeFind_none_at (t : VTable) (s : State) (h : Nat) :
    ∀ rem i j, i ≤ j → j < i + rem →
      (∀ k, i ≤ k → k < j → probedOk t s h k) →
      (t ((h + j) % MAXV)).valid = false →
      probeFindAux t s h rem i = none := by
  intro rem
  induction rem with
  | zero => intro i j h1 h2; omega
  | succ rem ih =>
    intro i j h1 h2 hpre hinv
    simp only [probeFindAux]
    rcases Nat.eq_or_lt_of_le h1 with rfl | hlt
    · rw [if_pos hinv]
    · obtain ⟨hv, hs⟩ := hpre i (le_refl i) hlt
      rw [if_neg (by rw [hv]; simp), if_neg hs]
      exact ih (i + 1) j hlt (by omega) (fun k hk1 hk2 => hpre k (by omega) hk2) hinv

theorem probeFind_hits (t : VTable) (s : State) (h : Nat) :
    ∀ rem i j, i ≤ j → j < i + rem →
      (∀ k, i ≤ k → k < j → probedOk t s h k) →
      (t ((h + j) % MAXV)).valid = true →
      (t ((h + j) % MAXV)).state = s →
      probeFindAux t s h rem i = some (t ((h + j) % MAXV)) := by
  intro rem
  induction rem with
  | zero => intro i j h1 h2; omega
  | succ rem ih =>
    intro i j h1 h2 hpre hv hs
    simp only [probeFindAux]
    rcases Nat.eq_or_lt_of_le h1 with rfl | hlt
    · rw [if_neg (by rw [hv]; simp), if_pos hs]
    · obtain ⟨hv0, hs0⟩ := hpre i (le_refl i) hlt
      rw [if_neg (by rw [hv0]; simp), if_neg hs0]
      exact ih (i + 1) j hlt (by omega) (fun k hk1 hk2 => hpre k (by omega) hk2) hv hs

theorem probeFind_some_char (t : VTable) (s : State) (h : Nat) :
    ∀ rem i e, probeFindAux t s h rem i = some e →
      ∃ j, i ≤ j ∧ j < i + rem ∧ (∀ k, i ≤ k → k < j → probedOk t s h k) ∧
        (t ((h + j) % MAXV)).valid = true ∧ (t ((h + j) % MAXV)).state = s ∧
        e = t ((h + j) % MAXV) := by
  intro rem
  induction rem with
  | zero => intro i e he; exact absurd he (by simp [probeFindAux])
  | succ rem ih =>
    intro i e he
    simp only [probeFindAux] at he
    by_cases hv : (t ((h + i) % MAXV)).valid = false
    · rw [if_pos hv] at he
      exact absurd he (by simp)
    · rw [if_neg hv] at he
      by_cases hs : (t ((h + i) % MAXV)).state = s
      · rw [if_pos hs] at he
        exact ⟨i, le_refl i, by omega, fun k hk1 hk2 => absurd hk1 (by omega),
          by simpa using hv, hs, (Option.some_inj.mp he).symm⟩
      · rw [if_neg hs] at he
        obtain ⟨j, hj1, hj2, hj3, hj4, hj5, hj6⟩ := ih (i + 1) e he
        refine ⟨j, by omega, by omega, fun k hk1 hk2 => ?_, hj4, hj5, hj6⟩
        rcases Nat.eq_or_lt_of_le hk1 with rfl | hlt
        · exact ⟨by simpa using hv, hs⟩
        · exact hj3 k hlt hk2

theorem probeIns_cases (t : VTable) (s : State) (g : ℚ) (p : State) (pe : Nat) (h : Nat) :
    ∀ rem i,
      (probeInsAux t s g p pe h rem i = t ∧
        ∀ k, i ≤ k → k < i + rem → probedOk t s h k)
      ∨ ∃ j, i ≤ j ∧ j < i + rem ∧
          (∀ k, i ≤ k → k < j → probedOk t s h k) ∧
          ((t ((h + j) % MAXV)).valid = false ∨ (t ((h + j) % MAXV)).state = s) ∧
          probeInsAux t s g p pe h rem i = upd t ((h + j) % MAXV) ⟨s, p, pe, g, true⟩ := by
  intro rem
  induction rem with
  | zero =>
    intro i
    exact Or.inl ⟨rfl, fun k hk1 hk2 => absurd hk2 (by omega)⟩
  | succ rem ih =>
    intro i
    by_cases hc : (t ((h + i) % MAXV)).valid = false ∨ (t ((h + i) % MAXV)).state = s
    · refine Or.inr ⟨i, le_refl i, by omega, fun k hk1 hk2 => absurd hk1 (by omega), hc, ?_⟩
      simp only [probeInsAux]
      rw [if_pos hc]
    · rcases ih (i + 1) with ⟨heq, hall⟩ | ⟨j, hj1, hj2, hj3, hj4, hj5⟩
      · refine Or.inl ⟨?_, fun k hk1 hk2 => ?_⟩
        · simp only [probeInsAux]
          rw [if_neg hc]
          exact heq
        · rcases Nat.eq_or_lt_of_le hk1 with rfl | hlt
          · push_neg at hc
            exact ⟨by simpa using hc.1, hc.2⟩
          · exact hall k hlt (by omega)
      · refine Or.inr ⟨j, by omega, by omega, fun k hk1 hk2 => ?_, hj4, ?_⟩
        · rcases Nat.eq_or_lt_of_le hk1 with rfl | hlt
          · push_neg at hc
            exact ⟨by simpa using hc.1, hc.2⟩
          · exact hj3 k hlt hk2
        · simp only [probeInsAux]
          rw [if_neg hc]
          exact hj5

/-- Top-level characterization of `visited_insert`: either the probe window
is exhausted and the table is returned unchanged (the silent drop), or the
first free-or-matching slot of the window is overwritten with the new
entry. -/
theorem visited_insert_cases (t : VTable) (s : State) (g : ℚ) (p : State) (pe : Nat) :
    (visited_insert t s g p pe = t ∧ windowExhausted t s)
    ∨ ∃ j, j < 2000 ∧ (∀ k, k < j → probedOk t s (hash_state s) k) ∧
        ((t ((hash_state s + j) % MAXV)).valid = false ∨
          (t ((hash_state s + j) % MAXV)).state = s) ∧
        visited_insert t s g p pe =
          upd t ((hash_state s + j) % MAXV) ⟨s, p, pe, g, true⟩ := by
  rcases probeIns_cases t s g p pe (hash_state s) 2000 0 with ⟨h1, h2⟩ |
    ⟨j, _, hj2, hj3, hj4, hj5⟩
  · exact Or.inl ⟨h1, fun k hk => h2 k (by omega) (by omega)⟩
  · exact Or.inr ⟨j, by omega, fun k hk => hj3 k (by omega) hk, hj4, hj5⟩

/-- A find misses on an exhausted window. -/
theorem visited_find_exhausted (t : VTable) (s : State) (hw : windowExhausted t s) :
    visited_find t s = none :=
  probeFind_none t s (hash_state s) 2000 0 (fun k hk1 hk2 => hw k (by omega))

/-- When the window is not exhausted, inserting `s` makes the freshly
written entry findable. -/
theorem visited_find_insert_self (t : VTable) (s : State) (g : ℚ) (p : State) (pe : Nat)
    (hne : ¬windowExhausted t s) :
    visited_find (visited_insert t s g p pe) s = some ⟨s, p, pe, g, true⟩ := by
  rcases visited_insert_cases t s g p pe with ⟨_, hw⟩ | ⟨j, hj1, hj2, hj3, hj4⟩
  · exact absurd hw hne
  · rw [hj4, visited_find]
    have hpre : ∀ k, 0 ≤ k → k < j →
        probedOk (upd t ((hash_state s + j) % MAXV) ⟨s, p, pe, g, true⟩) s
          (hash_state s) k := by
      intro k _ hk
      obtain ⟨hv, hs⟩ := hj2 k hk
      have hne2 : (hash_state s + k) % MAXV ≠ (hash_state s + j) % MAXV :=
        probe_idx_ne _ k j hk (by simp only [MAXV]; omega)
      constructor <;> rw [upd, if_neg hne2] <;> assumption
    rw [probeFind_hits _ s (hash_state s) 2000 0 j (by omega) (by omega) hpre
      (by rw [upd, if_pos rfl]) (by rw [upd, if_pos rfl])]
    rw [upd, if_pos rfl]

/-- A state present in the table stays present across any insertion (no
slot a find scans past ever becomes free or changes state in a way that
hides the entry). -/
theorem visited_find_insert_pres (t : VTable) (s s2 : State) (g : ℚ) (p : State)
    (pe : Nat) (hfind : visited_find t s ≠ none) :
    visited_find (visited_insert t s2 g p pe) s ≠ none := by
  obtain ⟨e, he⟩ := Option.ne_none_iff_exists'.mp hfind
  obtain ⟨js, _, hjs2, hjs3, hjs4, hjs5, _⟩ :=
    probeFind_some_char t s (hash_state s) 2000 0 e he
  rcases visited_insert_cases t s2 g p pe with ⟨heq, _⟩ | ⟨j2, hj21, hj22, hj23, hj24⟩
  · rw [heq]
    exact hfind
  · rw [hj24]
    by_cases hss : s2 = s
    · subst hss
      have hj2js : j2 = js := by
        by_contra hne
        rcases Nat.lt_or_ge j2 js with hlt | hge
        · obtain ⟨hv, hs⟩ := hjs3 j2 (by omega) hlt
          rcases hj23 with hcc | hcc
          · rw [hv] at hcc
            exact absurd hcc (by simp)
          · exact hs hcc
        · have hlt2 : js < j2 := by omega
          obtain ⟨hv, hs⟩ := hj22 js hlt2
          exact hs hjs5
      subst hj2js
      have hpre : ∀ k, 0 ≤ k → k < j2 →
          probedOk (upd t ((hash_state s2 + j2) % MAXV) ⟨s2, p, pe, g, true⟩) s2
            (hash_state s2) k := by
        intro k _ hk
        obtain ⟨hv, hs⟩ := hjs3 k (by omega) hk
        have hne2 : (hash_state s2 + k) % MAXV ≠ (hash_state s2 + j2) % MAXV :=
          probe_idx_ne _ k j2 hk (by simp only [MAXV]; omega)
        constructor <;> rw [upd, if_neg hne2] <;> assumption
      rw [visited_find, probeFind_hits _ s2 (hash_state s2) 2000 0 j2 (by omega)
        (by omega) hpre (by rw [upd, if_pos rfl]) (by rw [upd, if_pos rfl])]
      simp
    · have hidxne : (hash_state s + js) % MAXV ≠ (hash_state s2 + j2) % MAXV := by
        intro heq2
        rcases hj23 with hcc | hcc
        · rw [← heq2, hjs4] at hcc
          exact absurd hcc (by simp)
        · rw [← heq2, hjs5] at hcc
          exact hss hcc.symm
      have hpre : ∀ k, 0 ≤ k → k < js →
          probedOk (upd t ((hash_state s2 + j2) % MAXV) ⟨s2, p, pe, g, true⟩) s
            (hash_state s) k := by
        intro k _ hk
        by_cases heq2 : (hash_state s + k) % MAXV = (hash_state s2 + j2) % MAXV
        · constructor <;> rw [heq2, upd, if_pos rfl]
          simpa using hss
        · obtain ⟨hv, hs⟩ := hjs3 k (by omega) hk
          constructor <;> rw [upd, if_neg heq2] <;> assumption
      rw [visited_find, probeFind_hits _ s (hash_state s) 2000 0 js (by omega)
        (by omega) hpre (by rw [upd, if_neg hidxne]; exact hjs4)
        (by rw [upd, if_neg hidxne]; exact hjs5)]
      simp

/-- Window exhaustion for `s` persists across any insertion: filled slots
never free up, and an insertion only overwrites a slot with its own state
(overwrite) or fills a previously free slot (which cannot lie in an
exhausted window unless the key collides, which the write condition rules
out). -/
theorem windowExhausted_insert (t : VTable) (s s2 : State) (g : ℚ) (p : State) (pe : Nat)
    (hw : windowExhausted t s) : windowExhausted (visited_insert t s2 g p pe) s := by
  rcases visited_insert_cases t s2 g p pe with ⟨heq, _⟩ | ⟨j2, hj21, hj22, hj23, hj24⟩
  · rw [heq]
    exact hw
  · rw [hj24]
    intro k hk
    obtain ⟨hv, hs⟩ := hw k hk
    by_cases heq2 : (hash_state s + k) % MAXV = (hash_state s2 + j2) % MAXV
    · have hsne : s2 ≠ s := by
        intro hss
        rcases hj23 with hcc | hcc
        · rw [← heq2, hv] at hcc
          exact absurd hcc (by simp)
        · rw [← heq2] at hcc
          rw [hss] at hcc
          exact hs hcc
      constructor <;> rw [heq2, upd, if_pos rfl]
      simpa using hsne
    · constructor <;> rw [upd, if_neg heq2] <;> assumption

/-- `membOrExh` is preserved by every insertion. -/
theorem membOrExh_insert (t : VTable) (s s2 : State) (g : ℚ) (p : State) (pe : Nat)
    (hm : membOrExh t s) : membOrExh (visited_insert t s2 g p pe) s := by
  rcases hm with hm | hm
  · exact Or.inl (visited_find_insert_pres t s s2 g p pe hm)
  · exact Or.inr (windowExhausted_insert t s s2 g p pe hm)

/-- After inserting `s` itself, `s` is either findable or its window was
(and remains) exhausted. -/
theorem membOrExh_insert_self (t : VTable) (s : State) (g : ℚ) (p : State) (pe : Nat) :
    membOrExh (visited_insert t s g p pe) s := by
  by_cases hw : windowExhausted t s
  · exact Or.inr (windowExhausted_insert t s s g p pe hw)
  · exact Or.inl (by rw [visited_find_insert_self t s g p pe hw]; simp)

/-- An insertion into an exhausted window is silently dropped: the table is
returned unchanged (vrouter.c lines 451-463: the loop runs out of probes
without writing). -/
theorem visited_insert_drop (t : VTable) (s : State) (g : ℚ) (p : State) (pe : Nat)
    (hw : windowExhausted t s) : visited_insert t s g p pe = t := by
  rcases visited_insert_cases t s g p pe with ⟨heq, _⟩ | ⟨j, hj1, _, hj3, _⟩
  · exact heq
  · obtain ⟨hv, hs⟩ := hw j hj1
    rcases hj3 with hcc | hcc
    · rw [hv] at hcc
      exact absurd hcc (by simp)
    · exact absurd hcc hs

/-- C4 (amended). A guarded call to visited-set insertion (every `route`
call site checks `visited_find` first and only inserts when the state is
absent or the new g is strictly below the stored g, lines 842-843 and
905-906; the two initial inserts hit freshly cleared tables) does exactly
one of three things: (a) when the 2000-slot probe window is exhausted it is
silently dropped, leaving the table unchanged and the state still absent;
(b) it creates a new entry carrying exactly the new state, parent, parent
edge and g; (c) it overwrites the existing entry — only when the new g is
strictly lower than the stored g — and the parent pointer and parent edge
are updated exactly together with g (the whole entry is rewritten,
vrouter.c lines 456-460). -/
theorem visited_insert_guarded (t : VTable) (s : State) (g : ℚ) (p : State) (pe : Nat)
    (hguard : ∀ e, visited_find t s = some e → g < e.g) :
    (windowExhausted t s ∧ visited_find t s = none ∧ visited_insert t s g p pe = t)
    ∨ (visited_find t s = none ∧
        visited_find (visited_insert t s g p pe) s = some ⟨s, p, pe, g, true⟩)
    ∨ (∃ e, visited_find t s = some e ∧ g < e.g ∧
        visited_find (visited_insert t s g p pe) s = some ⟨s, p, pe, g, true⟩) := by
  by_cases hw : windowExhausted t s
  · exact Or.inl ⟨hw, visited_find_exhausted t s hw, visited_insert_drop t s g p pe hw⟩
  · cases hfe : visited_find t s with
    | none => exact Or.inr (Or.inl ⟨rfl, visited_find_insert_self t s g p pe hw⟩)
    | some e =>
      exact Or.inr (Or.inr ⟨e, rfl, hguard e hfe, visited_find_insert_self t s g p pe hw⟩)

/-- Witness for C4: a guarded insertion into the empty table (the initial
`visited_insert` of `route` after `visited_clear_both`). -/
theorem visited_insert_guarded_spot :
    visited_find emptyVisited sProbe = none ∧
    ((windowExhausted emptyVisited sProbe ∧ visited_find emptyVisited sProbe = none ∧
        visited_insert emptyVisited sProbe 5 ⟨0, 0⟩ 0 = emptyVisited)
      ∨ (visited_find emptyVisited sProbe = none ∧
          visited_find (visited_insert emptyVisited sProbe 5 ⟨0, 0⟩ 0) sProbe =
            some ⟨sProbe, ⟨0, 0⟩, 0, 5, true⟩)
      ∨ (∃ e, visited_find emptyVisited sProbe = some e ∧ (5:ℚ) < e.g ∧
          visited_find (visited_insert emptyVisited sProbe 5 ⟨0, 0⟩ 0) sProbe =
            some ⟨sProbe, ⟨0, 0⟩, 0, 5, true⟩)) := by
  have hn : visited_find emptyVisited sProbe = none := by decide
  exact ⟨hn, visited_insert_guarded emptyVisited sProbe 5 ⟨0, 0⟩ 0
    (fun e he => absurd (hn.symm.trans he) (by simp))⟩

/-- Counterexample to C4 as stated: on a table whose whole probe window for
state (2,2) holds valid entries for the different state (1,1), an insertion
of (2,2) — the guard holds vacuously, the state has no stored entry — is
silently dropped: the table is unchanged, no entry is created, no g is
decreased, and the state is still absent afterwards. -/
theorem visited_insert_dropped_cex :
    visited_find tblFull sProbe = none ∧
    visited_insert tblFull sProbe 5 ⟨0, 0⟩ 0 = tblFull ∧
    visited_find (visited_insert tblFull sProbe 5 ⟨0, 0⟩ 0) sProbe = none := by
  have hw : windowExhausted tblFull sProbe := by
    intro k hk
    exact ⟨rfl, fun h => absurd h (by decide : ¬((⟨1, 1⟩ : State) = sProbe))⟩
  have hins := visited_insert_drop tblFull sProbe 5 ⟨0, 0⟩ 0 hw
  refine ⟨visited_find_exhausted tblFull sProbe hw, hins, ?_⟩
  rw [hins]
  exact visited_find_exhausted tblFull sProbe hw

/-! Iteration accounting for the search loop: each loop-body half pops at
most once and `iterations` counts exactly the pops. -/

theorem meetUpdate_iterations (s : Search) (opp : VTable) (cur : HeapEntry) :
    (meetUpdate s opp cur).iterations = s.iterations := by
  simp only [meetUpdate]
  split
  · split <;> rfl
  · rfl

theorem stepFwdRest_iterations (ctx : Ctx) (s1 : Search) (cur : HeapEntry) :
    (stepFwdRest ctx s1 cur).iterations = s1.iterations := by
  simp only [stepFwdRest]
  split
  · exact meetUpdate_iterations s1 s1.visited_bwd cur
  · split
    · exact meetUpdate_iterations s1 s1.visited_bwd cur
    · simp [meetUpdate_iterations]

theorem stepBwdRest_iterations (ctx : Ctx) (s1 : Search) (cur : HeapEntry) :
    (stepBwdRest ctx s1 cur).1.iterations = s1.iterations := by
  simp only [stepBwdRest]
  split
  · exact meetUpdate_iterations s1 s1.visited_fwd cur
  · split
    · exact meetUpdate_iterations s1 s1.visited_fwd cur
    · simp [meetUpdate_iterations]

theorem stepFwd_iterations (ctx : Ctx) (s : Search) :
    (stepFwd ctx s).iterations ≤ s.iterations + 1 := by
  simp only [stepFwd]
  split
  · split
    · split
      · simp
      · rw [stepFwdRest_iterations]
    · rw [stepFwdRest_iterations]
  · omega

theorem stepBwd_iterations (ctx : Ctx) (s : Search) :
    (stepBwd ctx s).1.iterations ≤ s.iterations + 1 := by
  simp only [stepBwd]
  split
  · split
    · split
      · simp
      · rw [stepBwdRest_iterations]
    · rw [stepBwdRest_iterations]
  · exact Nat.le_succ _

theorem bodyStep_iterations (ctx : Ctx) (s : Search) :
    (bodyStep ctx s).1.iterations ≤ s.iterations + 2 := by
  have h1 := stepFwd_iterations ctx s
  have h2 := stepBwd_iterations ctx (stepFwd ctx s)
  simp only [bodyStep]
  split
  · dsimp only
    omega
  · split <;> (dsimp only; omega)

theorem searchLoop_iterations (ctx : Ctx) (cap : Nat) :
    ∀ fuel s, (searchLoop ctx cap fuel s).iterations ≤ max s.iterations (cap + 1) := by
  intro fuel
  induction fuel with
  | zero => intro s; exact le_max_left _ _
  | succ fuel ih =>
    intro s
    rw [searchLoop]
    split
    · next hcond =>
      have hbody := bodyStep_iterations ctx s
      show (if (bodyStep ctx s).2 = true then (bodyStep ctx s).1
        else searchLoop ctx cap fuel (bodyStep ctx s).1).iterations ≤ _
      split
      · omega
      · have := ih (bodyStep ctx s).1
        omega
    · exact le_max_left _ _

theorem searchLoop_empty_stop (ctx : Ctx) (cap fuel : Nat) (s : Search)
    (hf : s.heap_fwd.size = 0) (hb : s.heap_bwd.size = 0) :
    searchLoop ctx cap fuel s = s := by
  cases fuel with
  | zero => rfl
  | succ fuel => rw [searchLoop, if_neg (by simp [hf, hb])]

/-- C6 (amended). The iteration cap is exactly the straight-line distance
in km times 30,000, truncated and clamped to `[10⁶, 6·10⁶]`
(vrouter.c lines 783-785). The while condition checks the cap once per
round and a round pops up to twice (`iterations` counts pops), so the loop
performs at most `cap + 1` pop-iterations — the cap itself can be exceeded
by exactly one pop — and it stops immediately when both heaps are empty. -/
theorem iteration_cap_spec :
    (∀ d : ℚ, capOf d = min (max (⌊d / 1000 * 30000⌋).toNat 1000000) 6000000) ∧
    (∀ (ctx : Ctx) (cap fuel : Nat) (s : Search), s.iterations = 0 →
      (searchLoop ctx cap fuel s).iterations ≤ cap + 1) ∧
    (∀ (ctx : Ctx) (cap fuel : Nat) (s : Search),
      s.heap_fwd.size = 0 → s.heap_bwd.size = 0 → searchLoop ctx cap fuel s = s) := by
  refine ⟨?_, ?_, ?_⟩
  · intro d
    simp only [capOf]
    split_ifs <;> omega
  · intro ctx cap fuel s h0
    have h := searchLoop_iterations ctx cap fuel s
    rw [h0] at h
    simpa using h
  · intro ctx cap fuel s hf hb
    exact searchLoop_empty_stop ctx cap fuel s hf hb

/-- Witness for C6: the cap formula at 100 km (3·10⁶ iterations, inside the
clamp window) and the pop bound on a concrete drained run. -/
theorem iteration_cap_spec_spot :
    capOf 100000 = min (max (⌊(100000 : ℚ) / 1000 * 30000⌋).toNat 1000000) 6000000 ∧
    drainSearch.iterations = 0 ∧
    (searchLoop drainCtx 1 2 drainSearch).iterations ≤ 1 + 1 ∧
    searchLoop drainCtx 1 0 ⟨emptyHeap, emptyHeap, emptyVisited, emptyVisited, 0, ⟨0, 0⟩, 0⟩ =
      ⟨emptyHeap, emptyHeap, emptyVisited, emptyVisited, 0, ⟨0, 0⟩, 0⟩ :=
  ⟨iteration_cap_spec.1 100000, rfl,
   iteration_cap_spec.2.1 drainCtx 1 2 drainSearch rfl,
   iteration_cap_spec.2.2 drainCtx 1 0 _ rfl rfl⟩

/-- Counterexample to C6's pop bound as stated: the loop consults the cap
only once per round, and a round with both heaps non-empty pops twice, so a
run can perform `cap + 1` pop-iterations. Concretely, with cap 1 and one
entry in each heap the loop performs 2 pops. -/
theorem iteration_cap_overshoot_cex :
    (searchLoop drainCtx 1 2 drainSearch).iterations = 2 ∧
    ¬((searchLoop drainCtx 1 2 drainSearch).iterations ≤ 1) := by
  constructor <;> decide

/-! ### C3: the snap stage. `find_nearest_node` applies no distance
threshold, and `main` has no "no nearby road" error: the far-node run below
routes from a node 6 km away and reports success. The only rejection path
is `route`'s `start_node >= node_count` guard, which fires when the snap
tile has no nodes (the locator then returns index 0), producing the generic
`no_path` error. The search-step lemmas are stated over an abstract visited
table `vt` with the one lookup fact the run needs, and instantiated at the
concrete table `vfFar` at the very end. -/

theorem hpFarQ_pop (q : ℚ) : heap_pop (hpFarQ q) = (heFarQ q, popFarQ q) := rfl

theorem hpFarQ_size (q : ℚ) : (hpFarQ q).size = 1 := rfl

theorem popFarQ_size (q : ℚ) : (popFarQ q).size = 0 := rfl

theorem vfFar_self : visited_find vfFar ssFar = some ⟨ssFar, ⟨0, 0⟩, 0, 0, true⟩ := rfl

theorem ssFar_tid : ssFar.tile_id = 519120 := rfl

theorem ssFar_nid : ssFar.node_id = 0 := rfl

theorem heFarQ_state (q : ℚ) : (heFarQ q).state = ssFar := rfl

theorem heFarQ_g (q : ℚ) : (heFarQ q).g = 0 := rfl

theorem ctxFar_tiles : ctxFar.tiles = cexFarTiles := rfl

theorem cexFarTiles_hit : cexFarTiles 519120 = some cexFarTile := rfl

theorem nodeCount_far : cexFarTile.node_count = 1 := rfl

theorem nodesFar : cexFarTile.nodes 0 = ⟨1, 1, 0, 1⟩ := rfl

theorem edgeIndices_far : edgeIndices cexFarTile (cexFarTile.nodes 0) = [0] := rfl

theorem hee_far : get_edge_end cexFarTile 0 = some eeFar := rfl

theorem ctxFar_hit : ctxFar.tiles ssFar.tile_id = some cexFarTile := rfl

theorem expandFold_far (ctx : Ctx) (cur : HeapEntry) (la lo : ℚ) (acc : Heap × VTable) :
    (edgeIndices cexFarTile (cexFarTile.nodes 0)).foldl
      (expandStep ctx cur cexFarTile la lo) acc = acc := by
  rw [edgeIndices_far]
  simp only [List.foldl_cons, List.foldl_nil, expandStep, hee_far, eeFar]
  norm_num

theorem meetUpdate_far1 (q : ℚ) (vt : VTable)
    (hvt : visited_find vt ssFar = some ⟨ssFar, ⟨0, 0⟩, 0, 0, true⟩) :
    meetUpdate ⟨popFarQ q, hpFarQ q, vt, vt, 1, ⟨0, 0⟩, (1e18 : ℚ)⟩ vt (heFarQ q) =
      ⟨popFarQ q, hpFarQ q, vt, vt, 1, ssFar, 0⟩ := by
  simp only [meetUpdate, heFarQ_state, heFarQ_g, hvt]
  norm_num

theorem meetUpdate_far2 (q : ℚ) (vt : VTable)
    (hvt : visited_find vt ssFar = some ⟨ssFar, ⟨0, 0⟩, 0, 0, true⟩) :
    meetUpdate ⟨popFarQ q, popFarQ q, vt, vt, 2, ssFar, (0 : ℚ)⟩ vt (heFarQ q) =
      ⟨popFarQ q, popFarQ q, vt, vt, 2, ssFar, 0⟩ := by
  simp only [meetUpdate, heFarQ_state, heFarQ_g, hvt]
  norm_num

theorem stepFwdRest_far (q : ℚ) (vt : VTable) (ctx : Ctx)
    (hvt : visited_find vt ssFar = some ⟨ssFar, ⟨0, 0⟩, 0, 0, true⟩)
    (hct : ctx.tiles ssFar.tile_id = some cexFarTile) :
    stepFwdRest ctx ⟨popFarQ q, hpFarQ q, vt, vt, 1, ⟨0, 0⟩, (1e18 : ℚ)⟩ (heFarQ q) =
      ⟨popFarQ q, hpFarQ q, vt, vt, 1, ssFar, 0⟩ := by
  simp only [stepFwdRest, meetUpdate_far1 q vt hvt, heFarQ_state, hct, ssFar_nid,
    nodeCount_far, expandFold_far, ge_iff_le, ite_self]

theorem stepFwd_far (q : ℚ) (vt : VTable) (ctx : Ctx)
    (hvt : visited_find vt ssFar = some ⟨ssFar, ⟨0, 0⟩, 0, 0, true⟩)
    (hct : ctx.tiles ssFar.tile_id = some cexFarTile) :
    stepFwd ctx ⟨hpFarQ q, hpFarQ q, vt, vt, 0, ⟨0, 0⟩, (1e18 : ℚ)⟩ =
      ⟨popFarQ q, hpFarQ q, vt, vt, 1, ssFar, 0⟩ := by
  simp only [stepFwd, hpFarQ_pop, hpFarQ_size, heFarQ_state, heFarQ_g, hvt,
    gt_iff_lt, lt_self_iff_false, ite_false, zero_lt_one, ite_true]
  exact stepFwdRest_far q vt ctx hvt hct

theorem stepBwdRest_far (q : ℚ) (vt : VTable) (ctx : Ctx)
    (hvt : visited_find vt ssFar = some ⟨ssFar, ⟨0, 0⟩, 0, 0, true⟩)
    (hct : ctx.tiles ssFar.tile_id = some cexFarTile) :
    stepBwdRest ctx ⟨popFarQ q, popFarQ q, vt, vt, 2, ssFar, (0 : ℚ)⟩ (heFarQ q) =
      (⟨popFarQ q, popFarQ q, vt, vt, 2, ssFar, 0⟩, false) := by
  simp only [stepBwdRest, meetUpdate_far2 q vt hvt, heFarQ_state, hct, ssFar_nid,
    nodeCount_far, expandFold_far, ge_iff_le, ite_self]
  norm_num

theorem stepBwd_far (q : ℚ) (vt : VTable) (ctx : Ctx)
    (hvt : visited_find vt ssFar = some ⟨ssFar, ⟨0, 0⟩, 0, 0, true⟩)
    (hct : ctx.tiles ssFar.tile_id = some cexFarTile) :
    stepBwd ctx ⟨popFarQ q, hpFarQ q, vt, vt, 1, ssFar, (0 : ℚ)⟩ =
      (⟨popFarQ q, popFarQ q, vt, vt, 2, ssFar, 0⟩, false) := by
  simp only [stepBwd, hpFarQ_pop, hpFarQ_size, heFarQ_state, heFarQ_g, hvt,
    gt_iff_lt, lt_self_iff_false, ite_false, zero_lt_one, ite_true]
  exact stepBwdRest_far q vt ctx hvt hct

theorem bodyStep_far (q : ℚ) (vt : VTable) (ctx : Ctx)
    (hvt : visited_find vt ssFar = some ⟨ssFar, ⟨0, 0⟩, 0, 0, true⟩)
    (hct : ctx.tiles ssFar.tile_id = some cexFarTile) :
    bodyStep ctx ⟨hpFarQ q, hpFarQ q, vt, vt, 0, ⟨0, 0⟩, (1e18 : ℚ)⟩ =
      (⟨popFarQ q, popFarQ q, vt, vt, 2, ssFar, 0⟩, true) := by
  have hmf : minF (popFarQ q) = 1e18 := by
    simp only [minF, popFarQ_size, gt_iff_lt, lt_self_iff_false, ite_false]
  simp only [bodyStep, stepFwd_far q vt ctx hvt hct, stepBwd_far q vt ctx hvt hct,
    ssFar_tid, hmf]
  norm_num

theorem searchLoop_far (q : ℚ) (vt : VTable) (ctx : Ctx)
    (hvt : visited_find vt ssFar = some ⟨ssFar, ⟨0, 0⟩, 0, 0, true⟩)
    (hct : ctx.tiles ssFar.tile_id = some cexFarTile)
    (c fuel : Nat) (hc : 0 < c) (hf : fuel ≠ 0) :
    searchLoop ctx c fuel ⟨hpFarQ q, hpFarQ q, vt, vt, 0, ⟨0, 0⟩, (1e18 : ℚ)⟩ =
      ⟨popFarQ q, popFarQ q, vt, vt, 2, ssFar, 0⟩ := by
  rw [searchLoop_eq, if_neg hf,
    if_pos (show ((⟨hpFarQ q, hpFarQ q, vt, vt, 0, ⟨0, 0⟩, (1e18 : ℚ)⟩ : Search).heap_fwd.size >
          0 ∨
        (⟨hpFarQ q, hpFarQ q, vt, vt, 0, ⟨0, 0⟩, (1e18 : ℚ)⟩ : Search).heap_bwd.size > 0) ∧
        (⟨hpFarQ q, hpFarQ q, vt, vt, 0, ⟨0, 0⟩, (1e18 : ℚ)⟩ : Search).iterations < c from
      ⟨Or.inl (lt_of_lt_of_eq one_pos (hpFarQ_size q).symm), hc⟩)]
  simp only [bodyStep_far q vt ctx hvt hct, if_true]

theorem walkPath_far_one (vt : VTable)
    (hvt : visited_find vt ssFar = some ⟨ssFar, ⟨0, 0⟩, 0, 0, true⟩) :
    walkPath vt ⟨519120, 0⟩ MAX_PATH ssFar 0 = 1 := by
  rw [walkPath_eq]
  simp only [hvt]
  norm_num [MAX_PATH, ssFar]

theorem walkPath_far_zero (vt : VTable) :
    walkPath vt ⟨519120, 0⟩ MAX_PATH ⟨0, 0⟩ 0 = 0 := by
  rw [walkPath_eq]
  norm_num [MAX_PATH]

theorem capOf_6000 : capOf 6000 = 1000000 := by
  have h1 : ((6000 : ℚ) / 1000 * 30000) = 180000 := by norm_num
  have h2 : (⌊(180000 : ℚ)⌋).toNat = 180000 := rfl
  simp only [capOf, h1, h2]
  norm_num

theorem routeFinal_far :
    routeFinal havSixKm cexFarTiles defaultOptions 519120 0 519120 0 0 0 =
      some (searchLoop ctxFar 1000000 1000001
        ⟨hpFarQ (6000 * kSpeedFactor (maxSpeedOf defaultOptions)),
          hpFarQ (6000 * kSpeedFactor (maxSpeedOf defaultOptions)), vfFar, vfFar, 0, ⟨0, 0⟩,
          (1e18 : ℚ)⟩) := by
  simp only [routeFinal, cexFarTiles_hit, nodeCount_far, ge_iff_le, nodesFar, havSixKm,
    capOf_6000, hpFarQ, heFarQ, vfFar, ctxFar, ssFar]
  norm_num

theorem route_eq_of (hav : ℚ → ℚ → ℚ → ℚ → ℚ) (tiles : Nat → Option Tile) (o : RouteOptions)
    (sti sn eti en : Nat) (la lo : ℚ) (hf hb : Heap) (vf vb : VTable) (it : Nat) (mp : State)
    (btc : ℚ)
    (h : routeFinal hav tiles o sti sn eti en la lo = some ⟨hf, hb, vf, vb, it, mp, btc⟩) :
    route hav tiles o sti sn eti en la lo =
      if mp.tile_id = 0 then 0
      else
        min (walkPath vf ⟨sti, sn⟩ MAX_PATH mp 0 +
          walkPath vb ⟨eti, en⟩ MAX_PATH
            (match visited_find vb mp with
              | some ve => ve.parent
              | none => mp) 0) MAX_PATH := by
  simp only [route, h]

theorem route_far :
    route havSixKm cexFarTiles defaultOptions 519120 0 519120 0 0 0 = 1 := by
  have hfin : routeFinal havSixKm cexFarTiles defaultOptions 519120 0 519120 0 0 0 =
      some ⟨popFarQ (6000 * kSpeedFactor (maxSpeedOf defaultOptions)),
        popFarQ (6000 * kSpeedFactor (maxSpeedOf defaultOptions)), vfFar, vfFar, 2, ssFar,
        0⟩ := by
    rw [routeFinal_far,
      searchLoop_far (6000 * kSpeedFactor (maxSpeedOf defaultOptions)) vfFar ctxFar
        vfFar_self ctxFar_hit 1000000 1000001 (by norm_num) (by norm_num)]
  rw [route_eq_of havSixKm cexFarTiles defaultOptions 519120 0 519120 0 0 0 _ _ _ _ _ _ _
      hfin,
    ssFar_tid, if_neg (by norm_num), vfFar_self]
  show min (walkPath vfFar ⟨519120, 0⟩ MAX_PATH ssFar 0 +
    walkPath vfFar ⟨519120, 0⟩ MAX_PATH ⟨0, 0⟩ 0) MAX_PATH = 1
  rw [walkPath_far_one vfFar vfFar_self, walkPath_far_zero vfFar]
  simp only [MAX_PATH]
  omega

theorem rangeNodes_far : List.range cexFarTile.node_count = [0] := rfl

theorem snap_far : find_nearest_node havSixKm 0 0 cexFarTile = 0 := by
  simp only [find_nearest_node, rangeNodes_far, List.foldl_cons, List.foldl_nil]
  split_ifs <;> rfl

theorem tileIdOf_00 : tileIdOf 0 0 = 519120 := by
  have h1 : ((0 : ℚ) + 90) / 0.25 = 360 := by norm_num
  have h2 : ((0 : ℚ) + 180) / 0.25 = 720 := by norm_num
  have h3 : (⌊(360 : ℚ)⌋).toNat = 360 := rfl
  have h4 : (⌊(720 : ℚ)⌋).toNat = 720 := rfl
  simp only [tileIdOf, h1, h2, h3, h4]

/-- C3 (amended): the router applies no snap-distance threshold and has no
"no nearby road" error. When a snap tile has no nodes, `find_nearest_node`
falls through to index 0 and `route` rejects it (`start_node >= node_count`),
so the program emits the generic `no_path` error object. -/
theorem snap_empty_tile_no_path (hav : ℚ → ℚ → ℚ → ℚ → ℚ) (tiles : Nat → Option Tile)
    (o : RouteOptions) (flat flon tlat tlon : ℚ) (t0 t1 : Tile)
    (h0 : tiles (tileIdOf flat flon) = some t0) (hn : t0.node_count = 0)
    (h1 : tiles (tileIdOf tlat tlon) = some t1) :
    mainModel hav tiles o flat flon tlat tlon = Output.no_path := by
  have hroute : ∀ sn en,
      route hav tiles o (tileIdOf flat flon) sn (tileIdOf tlat tlon) en tlat tlon = 0 := by
    intro sn en
    simp only [route, routeFinal, h0, hn, ge_iff_le, Nat.zero_le, ite_true]
  simp only [mainModel, h0, h1, hroute, if_true]

/-- Witness for C3: on a tile map whose only tile (at the snap tile id of
the origin) has no nodes, the program reports `no_path`. -/
theorem snap_empty_tile_no_path_spot :
    mainModel havSixKm emptyTiles defaultOptions 0 0 0 0 = Output.no_path :=
  snap_empty_tile_no_path havSixKm emptyTiles defaultOptions 0 0 0 0 emptyTile emptyTile
    (by simp [emptyTiles, tileIdOf_00]) rfl (by simp [emptyTiles, tileIdOf_00])

/-- Counterexample to C3 as stated: every node of the snap tile lies 6 km
from the query point (farther than the claimed 5 km threshold), yet the
program surfaces no error at all — it routes from the far node and reports
success with a 1-node path. -/
theorem snap_no_threshold_cex :
    (∀ i, i < cexFarTile.node_count →
      havSixKm 0 0 (cexFarTile.nodes i).lat (cexFarTile.nodes i).lon > 5000) ∧
    mainModel havSixKm cexFarTiles defaultOptions 0 0 0 0 = Output.success 1 := by
  constructor
  · intro i _
    norm_num [havSixKm]
  · simp only [mainModel, tileIdOf_00, cexFarTiles_hit, snap_far, route_far]
    norm_num

/-! ### C10: the meeting-point sentinel. The "no meeting yet" sentinel is
the state (0,0), checked only through `tile_id == 0`; a zero-tile meeting
point makes `route` return 0 and `main` emit `no_path`, while a non-zero
one always yields a positive path length. The `iso` fixtures drive a
concrete never-meeting run (two isolated nodes in different tiles); the
step lemmas are again stated over abstract tables and context. -/

theorem walkPath_le (vt : VTable) (anchor : State) :
    ∀ fuel s len, len ≤ walkPath vt anchor fuel s len := by
  intro fuel
  induction fuel with
  | zero => intro s len; exact Nat.le_refl len
  | succ fuel ih =>
    intro s len
    simp only [walkPath]
    split
    · exact Nat.le_refl _
    · split
      · exact Nat.le_refl _
      · cases hf : visited_find vt s with
        | none => simp only [hf]; exact Nat.le_succ _
        | some ve =>
          simp only [hf]
          split
          · exact Nat.le_succ _
          · exact Nat.le_trans (Nat.le_succ _) (ih ve.parent (len + 1))

theorem walkPath_pos (vt : VTable) (anchor : State) (s : State) (hs : s ≠ ⟨0, 0⟩) :
    1 ≤ walkPath vt anchor MAX_PATH s 0 := by
  rw [walkPath_eq]
  rw [if_neg (by norm_num [MAX_PATH] : ¬(MAX_PATH = 0))]
  rw [if_neg hs]
  rw [if_neg (by norm_num [MAX_PATH] : ¬(0 ≥ MAX_PATH))]
  cases hf : visited_find vt s with
  | none => simp only [hf]; exact Nat.le_refl 1
  | some ve =>
    simp only [hf]
    split
    · exact Nat.le_refl 1
    · have := walkPath_le vt anchor (MAX_PATH - 1) ve.parent (0 + 1)
      omega

theorem isoTiles_hit0 : isoTiles 519120 = some isoTile := rfl

theorem isoTiles_hit1 : isoTiles 524884 = some isoTile := rfl

theorem isoNodeCount : isoTile.node_count = 1 := rfl

theorem isoNodes : isoTile.nodes 0 = ⟨1, 1, 0, 0⟩ := rfl

theorem rangeIso : List.range isoTile.node_count = [0] := rfl

theorem edgeIndices_iso : edgeIndices isoTile (isoTile.nodes 0) = [] := rfl

theorem sIso1_nid : sIso1.node_id = 0 := rfl

theorem heIso1_state (q : ℚ) : (heIso1 q).state = sIso1 := rfl

theorem heIso1_g (q : ℚ) : (heIso1 q).g = 0 := rfl

theorem hpIso1_pop (q : ℚ) : heap_pop (hpIso1 q) = (heIso1 q, popIso1 q) := rfl

theorem hpIso1_size (q : ℚ) : (hpIso1 q).size = 1 := rfl

theorem popIso1_size (q : ℚ) : (popIso1 q).size = 0 := rfl

theorem vbIso1_self : visited_find vbIso1 sIso1 = some ⟨sIso1, ⟨0, 0⟩, 0, 0, true⟩ := rfl

theorem vbIso1_miss : visited_find vbIso1 ssFar = none := rfl

theorem vfFar_miss : visited_find vfFar sIso1 = none := rfl

theorem meetUpdate_iso1 (q : ℚ) (vtf vtb : VTable)
    (hmiss0 : visited_find vtb ssFar = none) :
    meetUpdate ⟨popFarQ q, hpIso1 q, vtf, vtb, 1, ⟨0, 0⟩, (1e18 : ℚ)⟩ vtb (heFarQ q) =
      ⟨popFarQ q, hpIso1 q, vtf, vtb, 1, ⟨0, 0⟩, (1e18 : ℚ)⟩ := by
  simp only [meetUpdate, heFarQ_state, hmiss0]

theorem meetUpdate_iso2 (q : ℚ) (vtf vtb : VTable)
    (hmiss1 : visited_find vtf sIso1 = none) :
    meetUpdate ⟨popFarQ q, popIso1 q, vtf, vtb, 2, ⟨0, 0⟩, (1e18 : ℚ)⟩ vtf (heIso1 q) =
      ⟨popFarQ q, popIso1 q, vtf, vtb, 2, ⟨0, 0⟩, (1e18 : ℚ)⟩ := by
  simp only [meetUpdate, heIso1_state, hmiss1]

theorem stepFwdRest_iso (q : ℚ) (vtf vtb : VTable) (ctx : Ctx)
    (hmiss0 : visited_find vtb ssFar = none)
    (hct0 : ctx.tiles ssFar.tile_id = some isoTile) :
    stepFwdRest ctx ⟨popFarQ q, hpIso1 q, vtf, vtb, 1, ⟨0, 0⟩, (1e18 : ℚ)⟩ (heFarQ q) =
      ⟨popFarQ q, hpIso1 q, vtf, vtb, 1, ⟨0, 0⟩, (1e18 : ℚ)⟩ := by
  simp only [stepFwdRest, meetUpdate_iso1 q vtf vtb hmiss0, heFarQ_state, hct0, ssFar_nid,
    isoNodeCount, edgeIndices_iso, List.foldl_nil, ge_iff_le, ite_self]

theorem stepFwd_iso (q : ℚ) (vtf vtb : VTable) (ctx : Ctx)
    (hvf : visited_find vtf ssFar = some ⟨ssFar, ⟨0, 0⟩, 0, 0, true⟩)
    (hmiss0 : visited_find vtb ssFar = none)
    (hct0 : ctx.tiles ssFar.tile_id = some isoTile) :
    stepFwd ctx ⟨hpFarQ q, hpIso1 q, vtf, vtb, 0, ⟨0, 0⟩, (1e18 : ℚ)⟩ =
      ⟨popFarQ q, hpIso1 q, vtf, vtb, 1, ⟨0, 0⟩, (1e18 : ℚ)⟩ := by
  simp only [stepFwd, hpFarQ_pop, hpFarQ_size, heFarQ_state, heFarQ_g, hvf,
    gt_iff_lt, lt_self_iff_false, ite_false, zero_lt_one, ite_true]
  exact stepFwdRest_iso q vtf vtb ctx hmiss0 hct0

theorem stepBwdRest_iso (q : ℚ) (vtf vtb : VTable) (ctx : Ctx)
    (hmiss1 : visited_find vtf sIso1 = none)
    (hct1 : ctx.tiles sIso1.tile_id = some isoTile) :
    stepBwdRest ctx ⟨popFarQ q, popIso1 q, vtf, vtb, 2, ⟨0, 0⟩, (1e18 : ℚ)⟩ (heIso1 q) =
      (⟨popFarQ q, popIso1 q, vtf, vtb, 2, ⟨0, 0⟩, (1e18 : ℚ)⟩, false) := by
  simp only [stepBwdRest, meetUpdate_iso2 q vtf vtb hmiss1, heIso1_state, hct1, sIso1_nid,
    isoNodeCount, edgeIndices_iso, List.foldl_nil, ge_iff_le, ite_self]
  norm_num

theorem stepBwd_iso (q : ℚ) (vtf vtb : VTable) (ctx : Ctx)
    (hvb : visited_find vtb sIso1 = some ⟨sIso1, ⟨0, 0⟩, 0, 0, true⟩)
    (hmiss1 : visited_find vtf sIso1 = none)
    (hct1 : ctx.tiles sIso1.tile_id = some isoTile) :
    stepBwd ctx ⟨popFarQ q, hpIso1 q, vtf, vtb, 1, ⟨0, 0⟩, (1e18 : ℚ)⟩ =
      (⟨popFarQ q, popIso1 q, vtf, vtb, 2, ⟨0, 0⟩, (1e18 : ℚ)⟩, false) := by
  simp only [stepBwd, hpIso1_pop, hpIso1_size, heIso1_state, heIso1_g, hvb,
    gt_iff_lt, lt_self_iff_false, ite_false, zero_lt_one, ite_true]
  exact stepBwdRest_iso q vtf vtb ctx hmiss1 hct1

theorem bodyStep_iso (q : ℚ) (vtf vtb : VTable) (ctx : Ctx)
    (hvf : visited_find vtf ssFar = some ⟨ssFar, ⟨0, 0⟩, 0, 0, true⟩)
    (hmiss0 : visited_find vtb ssFar = none)
    (hvb : visited_find vtb sIso1 = some ⟨sIso1, ⟨0, 0⟩, 0, 0, true⟩)
    (hmiss1 : visited_find vtf sIso1 = none)
    (hct0 : ctx.tiles ssFar.tile_id = some isoTile)
    (hct1 : ctx.tiles sIso1.tile_id = some isoTile) :
    bodyStep ctx ⟨hpFarQ q, hpIso1 q, vtf, vtb, 0, ⟨0, 0⟩, (1e18 : ℚ)⟩ =
      (⟨popFarQ q, popIso1 q, vtf, vtb, 2, ⟨0, 0⟩, (1e18 : ℚ)⟩, false) := by
  simp only [bodyStep, stepFwd_iso q vtf vtb ctx hvf hmiss0 hct0,
    stepBwd_iso q vtf vtb ctx hvb hmiss1 hct1]
  norm_num

theorem searchLoop_iso (q : ℚ) (vtf vtb : VTable) (ctx : Ctx)
    (hvf : visited_find vtf ssFar = some ⟨ssFar, ⟨0, 0⟩, 0, 0, true⟩)
    (hmiss0 : visited_find vtb ssFar = none)
    (hvb : visited_find vtb sIso1 = some ⟨sIso1, ⟨0, 0⟩, 0, 0, true⟩)
    (hmiss1 : visited_find vtf sIso1 = none)
    (hct0 : ctx.tiles ssFar.tile_id = some isoTile)
    (hct1 : ctx.tiles sIso1.tile_id = some isoTile)
    (c fuel : Nat) (hc : 0 < c) (hf : fuel ≠ 0) :
    searchLoop ctx c fuel ⟨hpFarQ q, hpIso1 q, vtf, vtb, 0, ⟨0, 0⟩, (1e18 : ℚ)⟩ =
      ⟨popFarQ q, popIso1 q, vtf, vtb, 2, ⟨0, 0⟩, (1e18 : ℚ)⟩ := by
  rw [searchLoop_eq, if_neg hf,
    if_pos (show ((⟨hpFarQ q, hpIso1 q, vtf, vtb, 0, ⟨0, 0⟩, (1e18 : ℚ)⟩ :
            Search).heap_fwd.size > 0 ∨
        (⟨hpFarQ q, hpIso1 q, vtf, vtb, 0, ⟨0, 0⟩, (1e18 : ℚ)⟩ : Search).heap_bwd.size > 0) ∧
        (⟨hpFarQ q, hpIso1 q, vtf, vtb, 0, ⟨0, 0⟩, (1e18 : ℚ)⟩ : Search).iterations < c from
      ⟨Or.inl (lt_of_lt_of_eq one_pos (hpFarQ_size q).symm), hc⟩)]
  simp only [bodyStep_iso q vtf vtb ctx hvf hmiss0 hvb hmiss1 hct0 hct1]
  exact searchLoop_empty_stop ctx c (fuel - 1) _ (popFarQ_size q) (popIso1_size q)

theorem ctxIso_hit0 : ctxIso.tiles ssFar.tile_id = some isoTile := rfl

theorem ctxIso_hit1 : ctxIso.tiles sIso1.tile_id = some isoTile := rfl

theorem routeFinal_iso :
    routeFinal havSixKm isoTiles defaultOptions 519120 0 524884 0 1 1 =
      some (searchLoop ctxIso 1000000 1000001
        ⟨hpFarQ (6000 * kSpeedFactor (maxSpeedOf defaultOptions)),
          hpIso1 (6000 * kSpeedFactor (maxSpeedOf defaultOptions)), vfFar, vbIso1, 0, ⟨0, 0⟩,
          (1e18 : ℚ)⟩) := by
  simp only [routeFinal, isoTiles_hit0, isoTiles_hit1, isoNodeCount, ge_iff_le, isoNodes,
    havSixKm, capOf_6000, hpFarQ, hpIso1, heFarQ, heIso1, vfFar, vbIso1, ctxIso, ssFar,
    sIso1]
  norm_num

theorem snap_iso00 : find_nearest_node havSixKm 0 0 isoTile = 0 := by
  simp only [find_nearest_node, rangeIso, List.foldl_cons, List.foldl_nil]
  split_ifs <;> rfl

theorem snap_iso11 : find_nearest_node havSixKm 1 1 isoTile = 0 := by
  simp only [find_nearest_node, rangeIso, List.foldl_cons, List.foldl_nil]
  split_ifs <;> rfl

theorem tileIdOf_11 : tileIdOf 1 1 = 524884 := by
  have h1 : ((1 : ℚ) + 90) / 0.25 = 364 := by norm_num
  have h2 : ((1 : ℚ) + 180) / 0.25 = 724 := by norm_num
  have h3 : (⌊(364 : ℚ)⌋).toNat = 364 := rfl
  have h4 : (⌊(724 : ℚ)⌋).toNat = 724 := rfl
  simp only [tileIdOf, h1, h2, h3, h4]

/-- C10: the meeting sentinel is the state (0,0), detected solely through
`tile_id == 0` (vrouter.c lines 790, 927, 938): if the loop ends with a
meeting point in tile 0 — in particular when the frontiers never meet —
`route` returns 0 and `main` prints the `no_path` error object; if the
recorded meeting point has a non-zero tile id, `route` returns a positive
path length, which `main` reports as success. -/
theorem meeting_sentinel_spec :
    (∀ (hav : ℚ → ℚ → ℚ → ℚ → ℚ) (tiles : Nat → Option Tile) (o : RouteOptions)
      (sti sn eti en : Nat) (la lo : ℚ) (fin : Search),
      routeFinal hav tiles o sti sn eti en la lo = some fin →
      fin.meeting_point.tile_id = 0 →
      route hav tiles o sti sn eti en la lo = 0) ∧
    (∀ (hav : ℚ → ℚ → ℚ → ℚ → ℚ) (tiles : Nat → Option Tile) (o : RouteOptions)
      (sti sn eti en : Nat) (la lo : ℚ) (fin : Search),
      routeFinal hav tiles o sti sn eti en la lo = some fin →
      fin.meeting_point.tile_id ≠ 0 →
      1 ≤ route hav tiles o sti sn eti en la lo) ∧
    (∀ (hav : ℚ → ℚ → ℚ → ℚ → ℚ) (tiles : Nat → Option Tile) (o : RouteOptions)
      (flat flon tlat tlon : ℚ) (ft tt : Tile),
      tiles (tileIdOf flat flon) = some ft →
      tiles (tileIdOf tlat tlon) = some tt →
      route hav tiles o (tileIdOf flat flon) (find_nearest_node hav flat flon ft)
        (tileIdOf tlat tlon) (find_nearest_node hav tlat tlon tt) tlat tlon = 0 →
      mainModel hav tiles o flat flon tlat tlon = Output.no_path) := by
  refine ⟨?_, ?_, ?_⟩
  · intro hav tiles o sti sn eti en la lo fin h htid
    simp only [route, h, htid, if_true]
  · intro hav tiles o sti sn eti en la lo fin h htid
    have hs : fin.meeting_point ≠ ⟨0, 0⟩ := fun he => htid (by rw [he])
    simp only [route, h]
    rw [if_neg htid]
    refine le_min (le_trans (walkPath_pos fin.visited_fwd ⟨sti, sn⟩ fin.meeting_point hs)
      (Nat.le_add_right _ _)) (by norm_num [MAX_PATH])
  · intro hav tiles o flat flon tlat tlon ft tt hft htt hr
    simp only [mainModel, hft, htt, hr, if_true]

/-- Witness for C10: the never-meeting run (two isolated nodes in different
tiles) ends with the sentinel meeting point, `route` returns 0 and `main`
prints `no_path`; the meeting run of the far-node fixture ends with a
non-zero meeting tile and a positive path length. -/
theorem meeting_sentinel_spec_spot :
    route havSixKm isoTiles defaultOptions 519120 0 524884 0 1 1 = 0 ∧
    1 ≤ route havSixKm cexFarTiles defaultOptions 519120 0 519120 0 0 0 ∧
    mainModel havSixKm isoTiles defaultOptions 0 0 1 1 = Output.no_path := by
  have hfin1 : routeFinal havSixKm isoTiles defaultOptions 519120 0 524884 0 1 1 =
      some ⟨popFarQ (6000 * kSpeedFactor (maxSpeedOf defaultOptions)),
        popIso1 (6000 * kSpeedFactor (maxSpeedOf defaultOptions)), vfFar, vbIso1, 2, ⟨0, 0⟩,
        (1e18 : ℚ)⟩ := by
    rw [routeFinal_iso,
      searchLoop_iso (6000 * kSpeedFactor (maxSpeedOf defaultOptions)) vfFar vbIso1 ctxIso
        vfFar_self vbIso1_miss vbIso1_self vfFar_miss ctxIso_hit0 ctxIso_hit1
        1000000 1000001 (by norm_num) (by norm_num)]
  have hfin2 : routeFinal havSixKm cexFarTiles defaultOptions 519120 0 519120 0 0 0 =
      some ⟨popFarQ (6000 * kSpeedFactor (maxSpeedOf defaultOptions)),
        popFarQ (6000 * kSpeedFactor (maxSpeedOf defaultOptions)), vfFar, vfFar, 2, ssFar,
        0⟩ := by
    rw [routeFinal_far,
      searchLoop_far (6000 * kSpeedFactor (maxSpeedOf defaultOptions)) vfFar ctxFar
        vfFar_self ctxFar_hit 1000000 1000001 (by norm_num) (by norm_num)]
  have h1 := meeting_sentinel_spec.1 havSixKm isoTiles defaultOptions 519120 0 524884 0 1 1
    _ hfin1 rfl
  have h2 := meeting_sentinel_spec.2.1 havSixKm cexFarTiles defaultOptions 519120 0 519120 0
    0 0 _ hfin2 (by rw [(rfl : (⟨popFarQ (6000 * kSpeedFactor (maxSpeedOf defaultOptions)),
      popFarQ (6000 * kSpeedFactor (maxSpeedOf defaultOptions)), vfFar, vfFar, 2, ssFar,
      0⟩ : Search).meeting_point = ssFar), ssFar_tid]; norm_num)
  have hc : route havSixKm isoTiles defaultOptions (tileIdOf 0 0)
      (find_nearest_node havSixKm 0 0 isoTile) (tileIdOf 1 1)
      (find_nearest_node havSixKm 1 1 isoTile) 1 1 = 0 := by
    rw [tileIdOf_00, tileIdOf_11, snap_iso00, snap_iso11]
    exact h1
  have h3 := meeting_sentinel_spec.2.2 havSixKm isoTiles defaultOptions 0 0 1 1 isoTile
    isoTile (by rw [tileIdOf_00]; exact isoTiles_hit0) (by rw [tileIdOf_11]; exact isoTiles_hit1)
    hc
  exact ⟨h1, h2, h3⟩

end VRouter
